import Mathlib

/-!
# TkCommissioner: the analysis tree builder

A shallow embedding of TreeBuilder (src/TreeBuilder.cpp): the run-type
dispatch, the per-kind analysis queries, the FecKey column expression, the
cache / rebuild logic of buildTree, fillTree and buildMultiPartTree, the
state snapshot of getState with its strip decoder, and the canonical labels and
loadAnalysis, followed by the properties established about them.

Texts (std::string, QString) are modelled as String, byte arrays as lists of
characters or of byte values, doubles as rationals. Of the debug stream written
through qDebug() only the diagnostics of the strip decoder are recorded.
-/

namespace TkCommissioner

/-! ## Run types -/

/-- Modelled from the spec: the run-type constants of namespace sistrip used by
TreeBuilder (APV_TIMING, OPTO_SCAN, VPSP_SCAN, FAST_CABLING, PEDESTALS,
CURRENTSTATE, LASTO2O, MULTIPART, UNKNOWN_RUN_TYPE) are declared in a header
that is not part of the sources; the spec lists them as the enumeration
AnalysisKind, whose members are pairwise distinct. -/
inductive RunType where
  | APV_TIMING
  | OPTO_SCAN
  | VPSP_SCAN
  | FAST_CABLING
  | PEDESTALS
  | CURRENTSTATE
  | LASTO2O
  | MULTIPART
  | UNKNOWN_RUN_TYPE
  deriving DecidableEq, Repr

/-- Embedding of TreeBuilder::iRunType: exact, case-sensitive comparison of the
analysis type text against the fixed aliases. -/
def iRunType (analysisType : String) : RunType :=
  if analysisType = "TIMING" then RunType.APV_TIMING
  else if analysisType = "OPTOSCAN" ∨ analysisType = "GAINSCAN" then RunType.OPTO_SCAN
  else if analysisType = "VPSPSCAN" then RunType.VPSP_SCAN
  else if analysisType = "VERY_FAST_CONNECTION" ∨ analysisType = "FASTFEDCABLING" then
    RunType.FAST_CABLING
  else if analysisType = "PEDESTALS" ∨ analysisType = "PEDESTAL" then RunType.PEDESTALS
  else if analysisType = "CURRENT" ∨ analysisType = "CURRENTSTATE" then RunType.CURRENTSTATE
  else RunType.UNKNOWN_RUN_TYPE

/-! ## Analysis queries -/

/-- The shared topology column block that opens every analysis query (the myBasicQuery stream of TreeBuilder::getQuery). -/
def myBasicQuery : String :=
  String.join [
    "select distinct ",
    "TKF.DETECTOR      Detector,",
    "TKF.SIDE          Side,",
    "TKF.LAYER         Layer,",
    "TKF.CL            Cl,",
    "TKF.CR            Cr,",
    "TKF.POWER         Power,",
    "TKF.MOD           Mod,",
    "TKF.RACK          Rack,",
    "TKF.CRATE         Crate,",
    "TKF.CONNECTOR     Slot,",
    "TKF.SECTOR        PP1,",
    "TKF.STACK         Stack,",
    "TKF.PLACE         Place,",
    "TKF.DETID         Detid,",
    "DCU.DCUHARDID           Dcu,",
    "FEC.CRATESLOT           Crate,",
    "FEC.FECSLOT             Fec,",
    "RING.RINGSLOT           Ring,",
    "CCU.CCUADDRESS          Ccu,",
    "CCU.ARRANGEMENT         CcuArrangement,",
    "HYBRID.I2CCHANNEL       I2CChannel,",
    "FEC.CRATESLOT*power(2,27)+FEC.FECSLOT*power(2,22)+RING.RINGSLOT*power(2,18)+CCU.CCUADDRESS*power(2,10)+HYBRID.I2CCHANNEL*power(2,5)+((ROUND((DEVICE.I2CADDRESS-.5)/2)-16)+1)*power(2,2)+(case when Mod(DEVICE.I2CADDRESS,2) = 0 then 1 else 2 end) FecKey,",
    "DEVICE.I2CADDRESS       I2CAddress,",
    "ROUND((DEVICE.I2CADDRESS-.5)/2)-16 lasChan,"]

/-- Text streamed into myQuery by the TIMING branch of TreeBuilder::getQuery. -/
def timingQuery : String :=
  String.join [
    myBasicQuery,
    "ANALYSISTIMING.DEVICEID DeviceId,",
    "ANALYSISTIMING.FEDID    FedId,",
    "ANALYSISTIMING.FEUNIT   FeUnit,",
    "ANALYSISTIMING.FECHAN   FeChan,",
    "ANALYSISTIMING.FEDAPV   FeApv,",
    "case ",
    " when ANALYSISTIMING.HEIGHT = -131070 ",
    " then 65535",
    " else ANALYSISTIMING.HEIGHT ",
    " end TickHeight,",
    "ABS(ANALYSISTIMING.DELAY)    Delay,",
    "ABS(ANALYSISTIMING.BASE)     Base,",
    "ABS(ANALYSISTIMING.PEAK)     Peak,",
    "ANALYSISTIMING.KIND     Kind,",
    "ANALYSISTIMING.ISVALID  IsValid ",
    "from ",
    "ANALYSISTIMING join ",
    "ANALYSIS on ANALYSISTIMING.ANALYSISID = ANALYSIS.ANALYSISID join ",
    "RUN      on RUN.RUNNUMBER             = ANALYSIS.RUNNUMBER  join ",
    "STATEHISTORY on STATEHISTORY.STATEHISTORYID = RUN.STATEHISTORYID join ",
    "DEVICE on ANALYSISTIMING.ANALYSISID=? and ",
    "ANALYSISTIMING.DEVICEID=DEVICE.DEVICEID join ",
    "HYBRID on DEVICE.HYBRIDID=HYBRID.HYBRIDID         join ",
    "CCU    on HYBRID.CCUID=CCU.CCUID                  join ",
    "RING   on CCU.RINGID=RING.RINGID                  join ",
    "FEC    on RING.FECID=FEC.FECID                    join ",
    "DEVICE b on b.HYBRIDID = HYBRID.HYBRIDID          join ",
    "DCU      on b.DEVICEID = DCU.DEVICEID             and  ",
    "            DCU.VERSIONMAJORID = STATEHISTORY.FECVERSIONMAJORID and ",
    "            DCU.VERSIONMINORID = STATEHISTORY.FECVERSIONMINORID left outer join ",
    "tk_fibers tkf    on DCU.DCUHARDID = tkf.dcuid and ",
    "mod( ANALYSISTIMING.FECHAN,3) = mod(fiber,3) order by DeviceId"]

/-- Text streamed into myQuery by the OPTOSCAN / GAINSCAN branch of TreeBuilder::getQuery. -/
def optoScanQuery : String :=
  String.join [
    myBasicQuery,
    " AOS.DEVICEID DeviceId,",
    " AOS.FEDID    FedId,",
    " AOS.FEUNIT   FeUnit,",
    " AOS.FECHAN   FeChan,",
    " AOS.FEDAPV   FeApv,",
    " AOS.GAIN,",
    " AOS.BIAS0,",
    " AOS.BIAS1,",
    " AOS.BIAS2,",
    " AOS.BIAS3,",
    " CASE",
    "     WHEN GAIN=0",
    "       THEN BIAS0",
    "     WHEN GAIN=1",
    "       THEN BIAS1",
    "     WHEN GAIN=2",
    "       THEN BIAS2",
    "     WHEN GAIN=3",
    "       THEN BIAS3",
    " END SELECTEDBIAS,",
    " AOS.MEASGAIN0,",
    " AOS.MEASGAIN1,",
    " AOS.MEASGAIN2,",
    " AOS.MEASGAIN3,",
    " CASE",
    "     WHEN GAIN=0",
    "       THEN MEASGAIN0",
    "     WHEN GAIN=1",
    "       THEN MEASGAIN1",
    "     WHEN GAIN=2",
    "       THEN MEASGAIN2",
    "     WHEN GAIN=3",
    "       THEN MEASGAIN3",
    " END SELECTEDMEASGAIN,",
    " AOS.ZEROLIGHT0,",
    " AOS.ZEROLIGHT1,",
    " AOS.ZEROLIGHT2,",
    " AOS.ZEROLIGHT3,",
    " CASE",
    "     WHEN GAIN=0",
    "       THEN ZEROLIGHT0",
    "     WHEN GAIN=1",
    "       THEN ZEROLIGHT1",
    "     WHEN GAIN=2",
    "       THEN ZEROLIGHT2",
    "     WHEN GAIN=3",
    "       THEN ZEROLIGHT3",
    " END SELECTEDZEROLIGHT,",
    " AOS.LINKNOISE0,",
    " AOS.LINKNOISE1,",
    " AOS.LINKNOISE2,",
    " AOS.LINKNOISE3,",
    " CASE",
    "     WHEN GAIN=0",
    "       THEN LINKNOISE0",
    "     WHEN GAIN=1",
    "       THEN LINKNOISE1",
    "     WHEN GAIN=2",
    "       THEN LINKNOISE2",
    "     WHEN GAIN=3",
    "       THEN LINKNOISE3",
    " END SELECTEDLINKNOISE,",
    " AOS.LIFTOFF0,",
    " AOS.LIFTOFF1,",
    " AOS.LIFTOFF2,",
    " AOS.LIFTOFF3,",
    " CASE",
    "     WHEN GAIN=0",
    "       THEN LIFTOFF0",
    "     WHEN GAIN=1",
    "       THEN LIFTOFF1",
    "     WHEN GAIN=2",
    "       THEN LIFTOFF2",
    "     WHEN GAIN=3",
    "       THEN LIFTOFF3",
    " END SELECTEDLIFTOFF,",
    " AOS.THRESHOLD0,",
    " AOS.THRESHOLD1,",
    " AOS.THRESHOLD2,",
    " AOS.THRESHOLD3,",
    " CASE",
    "     WHEN GAIN=0",
    "       THEN THRESHOLD0",
    "     WHEN GAIN=1",
    "       THEN THRESHOLD1",
    "     WHEN GAIN=2",
    "       THEN THRESHOLD2",
    "     WHEN GAIN=3",
    "       THEN THRESHOLD3",
    " END SELECTEDTHRESHOLD,",
    " AOS.TICKHEIGHT0,",
    " AOS.TICKHEIGHT1,",
    " AOS.TICKHEIGHT2,",
    " AOS.TICKHEIGHT3,",
    " CASE",
    "     WHEN GAIN=0",
    "       THEN TICKHEIGHT0",
    "     WHEN GAIN=1",
    "       THEN TICKHEIGHT1",
    "     WHEN GAIN=2",
    "       THEN TICKHEIGHT2",
    "     WHEN GAIN=3",
    "       THEN TICKHEIGHT3",
    " END SELECTEDTICKHEIGHT,",
    " AOS.ISVALID,",
    " AOS.BASELINESLOP0,",
    " AOS.BASELINESLOP1,",
    " AOS.BASELINESLOP2,",
    " AOS.BASELINESLOP3, ",
    " CASE",
    "     WHEN GAIN=0",
    "       THEN BASELINESLOP0",
    "     WHEN GAIN=1",
    "       THEN BASELINESLOP1",
    "     WHEN GAIN=2",
    "       THEN BASELINESLOP2",
    "     WHEN GAIN=3",
    "       THEN BASELINESLOP3",
    " END SELECTEDBASELINESLOP,",
    " CASE",
    "     WHEN BASELINESLOP0<0.1",
    "       THEN -1",
    "     WHEN TICKHEIGHT0=65535",
    "       THEN -1",
    "     ELSE TICKHEIGHT0/BASELINESLOP0",
    " END NORMTICK0,",
    " CASE",
    "     WHEN BASELINESLOP1<0.1",
    "       THEN -1",
    "     WHEN TICKHEIGHT1=65535",
    "       THEN -1",
    "     ELSE TICKHEIGHT1/BASELINESLOP1",
    " END NORMTICK1,",
    " CASE",
    "     WHEN BASELINESLOP2<0.1",
    "       THEN -1",
    "     WHEN TICKHEIGHT2=65535",
    "       THEN -1",
    "     ELSE TICKHEIGHT2/BASELINESLOP2",
    " END NORMTICK2,",
    " CASE",
    "     WHEN BASELINESLOP3<0.1",
    "       THEN -1",
    "     WHEN TICKHEIGHT3=65535",
    "       THEN -1",
    "     ELSE TICKHEIGHT3/BASELINESLOP3",
    " END NORMTICK3",
    " from",
    " ANALYSISOPTOSCAN AOS join",
    " ANALYSIS on AOS.ANALYSISID = ANALYSIS.ANALYSISID join",
    " RUN      on RUN.RUNNUMBER  = ANALYSIS.RUNNUMBER  join",
    " STATEHISTORY on STATEHISTORY.STATEHISTORYID = RUN.STATEHISTORYID join",
    " DEVICE on AOS.DEVICEID=DEVICE.DEVICEID join",
    " HYBRID on DEVICE.HYBRIDID=HYBRID.HYBRIDID join",
    " CCU    on HYBRID.CCUID=CCU.CCUID join",
    " RING   on CCU.RINGID=RING.RINGID join",
    " FEC    on RING.FECID=FEC.FECID   join",
    " DEVICE b on b.HYBRIDID = HYBRID.HYBRIDID          join",
    " DCU      on b.DEVICEID = DCU.DEVICEID   and",
    "             DCU.VERSIONMAJORID = STATEHISTORY.FECVERSIONMAJORID and",
    "             DCU.VERSIONMINORID = STATEHISTORY.FECVERSIONMINORID left outer join",
    " tk_fibers tkf on DCU.DCUHARDID = tkf.dcuid and ",
    " mod( AOS.FECHAN,3) = mod(fiber,3) ",
    " where ",
    " AOS.ANALYSISID=?"]

/-- Text streamed into myQuery by the VPSPSCAN branch of TreeBuilder::getQuery. -/
def vpspScanQuery : String :=
  String.join [
    myBasicQuery,
    " ANALYSISVPSPSCAN.DEVICEID DeviceId,",
    " ANALYSISVPSPSCAN.FEDID    FedId,",
    " ANALYSISVPSPSCAN.FEUNIT   FeUnit,",
    " ANALYSISVPSPSCAN.FECHAN   FeChan,",
    " ANALYSISVPSPSCAN.FEDAPV   FeApv,",
    " ANALYSISVPSPSCAN.VPSP,",
    " ANALYSISVPSPSCAN.ADCLEVEL,",
    " ANALYSISVPSPSCAN.FRACTION,",
    " ANALYSISVPSPSCAN.TOPEDGE,",
    " ANALYSISVPSPSCAN.BOTTOMEDGE,",
    " ANALYSISVPSPSCAN.TOPLEVEL,",
    " ANALYSISVPSPSCAN.BOTTOMLEVEL,",
    " ANALYSISVPSPSCAN.ISVALID ",
    " from",
    " ANALYSISVPSPSCAN join",
    " ANALYSIS on ANALYSISVPSPSCAN.ANALYSISID = ANALYSIS.ANALYSISID join",
    " RUN      on RUN.RUNNUMBER             = ANALYSIS.RUNNUMBER  join",
    " STATEHISTORY on STATEHISTORY.STATEHISTORYID = RUN.STATEHISTORYID and",
    "                 STATEHISTORY.PARTITIONID    = ANALYSIS.PARTITIONID    join",
    " DEVICE on ANALYSISVPSPSCAN.DEVICEID=DEVICE.DEVICEID join",
    " HYBRID on DEVICE.HYBRIDID=HYBRID.HYBRIDID join",
    " CCU    on HYBRID.CCUID=CCU.CCUID join",
    " RING   on CCU.RINGID=RING.RINGID join",
    " FEC    on RING.FECID=FEC.FECID   join",
    " DEVICE b on b.HYBRIDID = HYBRID.HYBRIDID          join",
    " DCU      on b.DEVICEID = DCU.DEVICEID             and",
    "              DCU.VERSIONMAJORID=STATEHISTORY.FECVERSIONMAJORID        and",
    "              DCU.VERSIONMINORID=STATEHISTORY.FECVERSIONMINORID        left outer join",
    " tk_fibers tkf on DCU.DCUHARDID = tkf.dcuid      and",
    "              mod( ANALYSISVPSPSCAN.FECHAN,3) = mod(fiber,3) ",
    " where",
    " ANALYSISVPSPSCAN.ANALYSISID=?"]

/-- Text streamed into myQuery by the VERY_FAST_CONNECTION / FASTFEDCABLING branch of TreeBuilder::getQuery. -/
def fastCablingQuery : String :=
  String.join [
    myBasicQuery,
    " ANALYSISFASTFEDCABLING.DEVICEID DeviceId,",
    " ANALYSISFASTFEDCABLING.FEDID    FedId,",
    " ANALYSISFASTFEDCABLING.FEUNIT   FeUnit,",
    " ANALYSISFASTFEDCABLING.FECHAN   FeChan,",
    " ANALYSISFASTFEDCABLING.FEDAPV   FeApv,",
    " ANALYSISFASTFEDCABLING.HIGHLEVEL,",
    " ANALYSISFASTFEDCABLING.HIGHRMS,",
    " ANALYSISFASTFEDCABLING.LOWLEVEL,",
    " ANALYSISFASTFEDCABLING.LOWRMS,",
    " ANALYSISFASTFEDCABLING.MAXLL,",
    " ANALYSISFASTFEDCABLING.MINLL,",
    " ANALYSISFASTFEDCABLING.DCUID,",
    " ANALYSISFASTFEDCABLING.LLDCH,",
    " ANALYSISFASTFEDCABLING.ISVALID,",
    " ANALYSISFASTFEDCABLING.ISDIRTY ",
    " from",
    " ANALYSISFASTFEDCABLING join",
    " ANALYSIS  on ANALYSISFASTFEDCABLING.ANALYSISID = ANALYSIS.ANALYSISID  join",
    " RUN       on RUN.RUNNUMBER             = ANALYSIS.RUNNUMBER           join",
    " STATEHISTORY on STATEHISTORY.STATEHISTORYID = RUN.STATEHISTORYID      and",
    "                 STATEHISTORY.PARTITIONID    = ANALYSIS.PARTITIONID    join",
    " DEVICE    on ANALYSISFASTFEDCABLING.DEVICEID=DEVICE.DEVICEID          join",
    " HYBRID    on DEVICE.HYBRIDID=HYBRID.HYBRIDID                          join",
    " CCU       on HYBRID.CCUID=CCU.CCUID                                   join",
    " RING      on CCU.RINGID=RING.RINGID                                   join",
    " FEC       on RING.FECID=FEC.FECID                                     join",
    " DEVICE b  on b.HYBRIDID=HYBRID.HYBRIDID                               join",
    " DCU       on b.DEVICEID = DCU.DEVICEID                                and",
    "              DCU.VERSIONMAJORID=STATEHISTORY.FECVERSIONMAJORID        and",
    "              DCU.VERSIONMINORID=STATEHISTORY.FECVERSIONMINORID        left outer join",
    " tk_fibers tkf on DCU.DCUHARDID = tkf.dcuid                          and",
    "              mod( ANALYSISFASTFEDCABLING.FECHAN,3) = mod(fiber,3)",
    " where ANALYSISFASTFEDCABLING.ANALYSISID=?"]

/-- Text streamed into myQuery by the PEDESTALS / PEDESTAL branch of TreeBuilder::getQuery. -/
def pedestalsQuery : String :=
  String.join [
    myBasicQuery,
    " ANALYSISPEDESTALS.DEVICEID     DeviceId,",
    " ANALYSISPEDESTALS.FEDID        FedId,",
    " ANALYSISPEDESTALS.FEUNIT       FeUnit,",
    " ANALYSISPEDESTALS.FECHAN       FeChan,",
    " ANALYSISPEDESTALS.FEDAPV       FeApv,",
    " ANALYSISPEDESTALS.PEDSMEAN     PedsMean,",
    " ANALYSISPEDESTALS.PEDSSPREAD   PedsSpread,",
    " ANALYSISPEDESTALS.NOISEMEAN    NoiseMean,",
    " ANALYSISPEDESTALS.NOISESPREAD  NoiseSpread,",
    " ANALYSISPEDESTALS.RAWMEAN      RawMean,",
    " ANALYSISPEDESTALS.RAWSPREAD    RawSpread,",
    " ANALYSISPEDESTALS.PEDSMAX      PedsMax,",
    " ANALYSISPEDESTALS.PEDSMIN      PedsMin,",
    " ANALYSISPEDESTALS.NOISEMAX     NoiseMax,",
    " ANALYSISPEDESTALS.NOISEMIN     NoiseMin,",
    " ANALYSISPEDESTALS.RAWMAX       RawMax,",
    " ANALYSISPEDESTALS.RAWMIN       RawMin,",
    " ANALYSISPEDESTALS.ISVALID      IsValid ",
    " from",
    " ANALYSISPEDESTALS join",
    " ANALYSIS on ANALYSISPEDESTALS.ANALYSISID = ANALYSIS.ANALYSISID join",
    " DEVICE on ANALYSISPEDESTALS.ANALYSISID=? and",
    " ANALYSISPEDESTALS.DEVICEID=DEVICE.DEVICEID join",
    " RUN on RUN.RUNNUMBER   = ANALYSIS.RUNNUMBER  join",
    " STATEHISTORY on STATEHISTORY.STATEHISTORYID = RUN.STATEHISTORYID join",
    " HYBRID on DEVICE.HYBRIDID=HYBRID.HYBRIDID join",
    " CCU    on HYBRID.CCUID=CCU.CCUID join",
    " RING   on CCU.RINGID=RING.RINGID join",
    " FEC    on RING.FECID=FEC.FECID   join",
    " DEVICE b on b.HYBRIDID = HYBRID.HYBRIDID          join",
    " DCU      on b.DEVICEID = DCU.DEVICEID             left outer join",
    " tk_fibers tkf on DCU.DCUHARDID = tkf.dcuid      and",
    " mod( ANALYSISPEDESTALS.FECHAN,3) = mod(fiber,3) order by DeviceId"]

/-- Embedding of TreeBuilder::getQuery: the query text for an analysis type;
the final else branch streams nothing, so the text is empty. -/
def getQuery (analysisType : String) : String :=
  if analysisType = "TIMING" then timingQuery
  else if analysisType = "OPTOSCAN" ∨ analysisType = "GAINSCAN" then optoScanQuery
  else if analysisType = "VPSPSCAN" then vpspScanQuery
  else if analysisType = "VERY_FAST_CONNECTION" ∨ analysisType = "FASTFEDCABLING" then
    fastCablingQuery
  else if analysisType = "PEDESTALS" ∨ analysisType = "PEDESTAL" then pedestalsQuery
  else ""

/-- Number of bind placeholders (the character ?) in a query text. -/
def placeholderCount (query : String) : Nat :=
  query.data.count '?'

/-- The query text that getQuery emits for each run type. -/
def queryOfRunType : RunType → String
  | RunType.APV_TIMING => timingQuery
  | RunType.OPTO_SCAN => optoScanQuery
  | RunType.VPSP_SCAN => vpspScanQuery
  | RunType.FAST_CABLING => fastCablingQuery
  | RunType.PEDESTALS => pedestalsQuery
  | _ => ""

/-- The analysis type texts of the five data-bearing kinds (Timing, OptoScan,
VpspScan, FastCabling, Pedestals), aliases included. -/
def dataBearingTypes : List String :=
  ["TIMING", "OPTOSCAN", "GAINSCAN", "VPSPSCAN", "VERY_FAST_CONNECTION", "FASTFEDCABLING",
   "PEDESTALS", "PEDESTAL"]

/-- The characters of a query text with the blanks removed, so that conditions
can be compared regardless of the spacing around the operators. -/
def despace (query : String) : List Char :=
  query.data.filter (fun c => c ≠ ' ')

/-- Whether the needle occurs as a contiguous block of the text. -/
def occursIn (needle : List Char) : List Char → Bool
  | [] => needle.isEmpty
  | c :: cs => needle.isPrefixOf (c :: cs) || occursIn needle cs

/-- The DCU join of a query is gated by the version-history snapshot: the text
equates DCU.VERSIONMAJORID with STATEHISTORY.FECVERSIONMAJORID and
DCU.VERSIONMINORID with STATEHISTORY.FECVERSIONMINORID. -/
def dcuVersionGated (query : String) : Bool :=
  occursIn "DCU.VERSIONMAJORID=STATEHISTORY.FECVERSIONMAJORID".data (despace query) &&
  occursIn "DCU.VERSIONMINORID=STATEHISTORY.FECVERSIONMINORID".data (despace query)

/-! ## The FecKey column -/

/-- SQL ROUND(n) to an integer: the nearest integer, halves rounded away from
zero. -/
def sqlRound (q : ℚ) : ℤ :=
  if 0 ≤ q then ⌊q + 1 / 2⌋ else -⌊-q + 1 / 2⌋

/-- Value of the FecKey select expression of the queries,
CRATESLOT*power(2,27)+FECSLOT*power(2,22)+RINGSLOT*power(2,18)+CCUADDRESS*power(2,10)
+I2CCHANNEL*power(2,5)+((ROUND((I2CADDRESS-.5)/2)-16)+1)*power(2,2)
+(case when Mod(I2CADDRESS,2) = 0 then 1 else 2 end),
on the hardware address columns of one row. -/
def fecKeyExpr (CRATESLOT FECSLOT RINGSLOT CCUADDRESS I2CCHANNEL I2CADDRESS : Nat) : ℤ :=
  (CRATESLOT : ℤ) * 2 ^ 27 + (FECSLOT : ℤ) * 2 ^ 22 + (RINGSLOT : ℤ) * 2 ^ 18
    + (CCUADDRESS : ℤ) * 2 ^ 10 + (I2CCHANNEL : ℤ) * 2 ^ 5
    + ((sqlRound (((I2CADDRESS : ℚ) - 1 / 2) / 2) - 16) + 1) * 2 ^ 2
    + (if I2CADDRESS % 2 = 0 then 1 else 2)

/-- The FecKey formula as the specification words it, with shifts and bitwise
OR: crateSlot<<27 | fecSlot<<22 | ringSlot<<18 | ccuAddress<<10 | i2cChannel<<5
| (round((i2cAddress-0.5)/2)-16+1)<<2 | (i2cAddress even ? 1 : 2). -/
def fecKeySpec (crateSlot fecSlot ringSlot ccuAddress i2cChannel i2cAddress : Nat) : Nat :=
  crateSlot <<< 27 ||| fecSlot <<< 22 ||| ringSlot <<< 18 ||| ccuAddress <<< 10
    ||| i2cChannel <<< 5
    ||| (sqlRound (((i2cAddress : ℚ) - 1 / 2) / 2) - 16 + 1).toNat <<< 2
    ||| (if i2cAddress % 2 = 0 then 1 else 2)

/-! ## Collaborators: result sets, the database, the artifact store -/

/-- A run identifier, the pair (partition name, run number) of QRunId. -/
abbrev QRunId := String × String

/-- A cell of a result set, or a value held by a tree branch. -/
inductive Cell where
  | null
  | integer (n : Int)
  | real (q : ℚ)
  | text (s : String)
  deriving DecidableEq, Repr

/-- A value bound to a placeholder of a prepared query. -/
inductive BindValue where
  | text (s : String)
  | integer (n : Int)
  deriving DecidableEq, Repr

/-- Modelled from the spec: the column value holders (subclasses Double, Integer
and String of Base_Type) are declared in a header that is not part of the
sources; the spec describes them as the closed set Real, Integer, Text. -/
inductive BaseType where
  | Double
  | Integer
  | String
  deriving DecidableEq, Repr

/-- One entry of the column list of a BaseQuery: the branch name and its value
holder. -/
structure Column where
  name : String
  type : BaseType
  deriving DecidableEq, Repr

/-- What TreeBuilder takes from outside the sources: the numeric values of the
sistrip constants, the Qt conversions, the column lists and cell binding of
BaseQuery / Base_Type, and the database connection. -/
structure Collaborators where
  /-- the numeric value of each sistrip run-type constant -/
  code : RunType → Int
  /-- QString::toInt on an analysis id -/
  toInt : String → Int
  /-- QVariant::toString on a result cell -/
  cellToString : Cell → String
  /-- BaseQuery::setExtendedQuery: the ordered column list of a run type -/
  setExtendedQuery : String → List Column
  /-- Base_Type::setFromResultset: the value a holder takes from a result cell -/
  setFromResultset : BaseType → Cell → Cell
  /-- DbConnection::dbConnected -/
  dbConnected : Bool
  /-- the rows a query returns for the given bind values (QSqlQuery exec / next) -/
  exec : String → List BindValue → List (List Cell)

/-- QString::number on an integer: its decimal text. -/
def QString.number (n : Int) : String :=
  toString n

/-- QString constructed from an integer constant, as in QString(sistrip::LASTO2O):
the integer converts to a QChar (its low 16 bits), giving a text of that single
character. -/
def QString.fromQChar (n : Int) : String :=
  String.singleton (Char.ofNat (n % 65536).toNat)

/-- A tree: its name, the booked branches and the filled entries, each entry
holding one value per branch. -/
structure TTree where
  name : String
  branches : List Column
  entries : List (List Cell)
  deriving DecidableEq, Repr

/-- A ROOT file: the list of its keys, all of them trees here. -/
structure TFile where
  keys : List TTree
  deriving DecidableEq, Repr

/-- The state TreeBuilder acts on: the artifact files by path (none when the
file is missing or cannot be opened) and the queries executed so far, oldest
first, each with its bind values. -/
structure World where
  files : String → Option TFile
  executed : List (String × List BindValue)

/-- Effect of new TFile(filename, "RECREATE"): an empty file replaces whatever
was stored at the path. -/
def World.recreate (w : World) (filename : String) : World :=
  { w with files := fun p => if p = filename then some ⟨[]⟩ else w.files p }

/-- Effect of tree->Write() followed by file->Close() on the file just
recreated: the tree becomes a key of the file. -/
def World.writeTree (w : World) (filename : String) (tree : TTree) : World :=
  { w with files := fun p =>
      if p = filename then some ⟨((w.files filename).getD ⟨[]⟩).keys ++ [tree]⟩ else w.files p }

/-- Effect of preparing, binding and executing one query: it is appended to the
record of executed queries. -/
def World.execute (w : World) (query : String) (binds : List BindValue) : World :=
  { w with executed := w.executed ++ [(query, binds)] }

/-- The cell at a column index of a result row (QSqlQuery::value); an index
outside the row gives the null cell. -/
def value (row : List Cell) (i : Nat) : Cell :=
  row.getD i Cell.null

/-! ## Filling and building trees -/

/-- The holder loop of fillTree, for(it = begin; it != itEnd; ++it,++i)
it->second->setFromResultset(query,i): each column holder in turn takes its
value from cell i of the current result row, i running with the holder. -/
def bindFrom (c : Collaborators) (row : List Cell) : List Column → Nat → List Cell
  | [], _ => []
  | column :: rest, i => c.setFromResultset column.type (value row i) :: bindFrom c row rest (i + 1)

/-- The entry filled for one result row: the values of the holders after the
holder loop started at index 0. -/
def bindRow (c : Collaborators) (columns : List Column) (row : List Cell) : List Cell :=
  bindFrom c row columns 0

/-- The loop of fillTree over the analysis ids: the query is executed once per
id, bound to the integer value of the id, and every result row fills one entry. -/
def fillLoop (c : Collaborators) (columns : List Column) (theQuery : String) :
    List String → TTree → World → TTree × World
  | [], tree, w => (tree, w)
  | analysisId :: rest, tree, w =>
    let binds := [BindValue.integer (c.toInt analysisId)]
    let rows := c.exec theQuery binds
    fillLoop c columns theQuery rest
      { tree with entries := tree.entries ++ rows.map (bindRow c columns) }
      (w.execute theQuery binds)

/-- Embedding of TreeBuilder::fillTree: nothing happens without a database
connection or without analysis ids; otherwise the branches of the run type are
booked and the tree is filled from the query results. -/
def fillTree (c : Collaborators) (tree : TTree) (runType : String) (theQuery : String)
    (analysisIds : List String) (w : World) : TTree × World :=
  if !c.dbConnected then (tree, w)
  else if analysisIds.length = 0 then (tree, w)
  else
    let columns := c.setExtendedQuery runType
    fillLoop c columns theQuery analysisIds
      { tree with branches := tree.branches ++ columns } w

/-- The first tree of the file at a path, as buildTree looks it up: the file must
exist and open, and have at least one key. -/
def firstTree (w : World) (filename : String) : Option TTree :=
  match w.files filename with
  | some file => file.keys.head?
  | none => none

/-- The sanity test of buildTree: the file exists, its first key is a tree, and
the tree has entries. -/
def treeIsSane (w : World) (filename : String) : Bool :=
  match firstTree w filename with
  | some tree => tree.entries.length != 0
  | none => false

/-- Embedding of TreeBuilder::buildTree (the overload taking a QRunId, which it
does not use): a sane cached tree is reused when useCache is set; otherwise a
state analysis id is refused, and any other id has the file recreated and the
tree filled from the query of the analysis type. The pointer returned by new
TFile is never null, so the branch that tests it is left out. -/
def buildTree (c : Collaborators) (filename analysisType analysisId : String)
    (_runId : QRunId) (useCache : Bool) (w : World) : Bool × World :=
  if treeIsSane w filename && useCache then (true, w)
  else if analysisId = QString.number (c.code RunType.CURRENTSTATE)
      ∨ analysisId = QString.fromQChar (c.code RunType.LASTO2O) then (false, w)
  else
    let w1 := w.recreate filename
    let analysisIds := [analysisId]
    let myQuery := getQuery analysisType
    let tree : TTree := ⟨"DBTree", [], []⟩
    let (tree, w2) := fillTree c tree analysisType myQuery analysisIds w1
    (true, w2.writeTree filename tree)

/-- The lookup query of buildMultiPartTree, resolving the analysis of a run. -/
def analysisLookupQuery : String :=
  String.join [
    "select max(analysisid), ANALYSISTYPE, RUNNUMBER, PARTITIONNAME",
    " from analysis a join partition b on a.PARTITIONID = b.PARTITIONID",
    " where PARTITIONNAME = ? ",
    " and RUNNUMBER= ?",
    " group by ANALYSISTYPE, RUNNUMBER, PARTITIONNAME"]

/-- The loop of buildMultiPartTree over the run ids: each run is looked up with
its partition name and run number; the analysis id and type are those of the
last row read; the loop stops with none as soon as a lookup does not return
exactly one row. -/
def resolveAnalyses (c : Collaborators) :
    List QRunId → List String → List String → World → Option (List String × List String) × World
  | [], analysisIds, analysisTypes, w => (some (analysisIds, analysisTypes), w)
  | runId :: rest, analysisIds, analysisTypes, w =>
    let binds := [BindValue.text runId.1, BindValue.text runId.2]
    let rows := c.exec analysisLookupQuery binds
    let w1 := w.execute analysisLookupQuery binds
    let analysisId := match rows.getLast? with
      | some row => c.cellToString (value row 0)
      | none => ""
    let analysisType := match rows.getLast? with
      | some row => c.cellToString (value row 1)
      | none => ""
    let resultCounter := rows.length
    if resultCounter = 1 then
      resolveAnalyses c rest (analysisIds ++ [analysisId]) (analysisTypes ++ [analysisType]) w1
    else (none, w1)

/-- Embedding of TreeBuilder::buildMultiPartTree: it needs a database
connection and exactly four run ids, resolves one analysis per run, and fills
one tree from the query of the first analysis type over the four analysis ids.
The pointer returned by new TFile is never null, so the branch that tests it is
left out. -/
def buildMultiPartTree (c : Collaborators) (filename : String) (runIds : List QRunId)
    (w : World) : Bool × World :=
  if !c.dbConnected then (false, w)
  else if runIds.length ≠ 4 then (false, w)
  else
    match resolveAnalyses c runIds [] [] w with
    | (none, w1) => (false, w1)
    | (some (analysisIds, analysisTypes), w1) =>
      if analysisIds.length ≠ 4 then (false, w1)
      else if analysisTypes.length ≠ 4 then (false, w1)
      else
        let w2 := w1.recreate filename
        let myQuery := getQuery (analysisTypes.getD 0 "")
        let tree : TTree := ⟨"DBTree", [], []⟩
        let (tree, w3) := fillTree c tree (analysisTypes.getD 0 "") myQuery analysisIds w2
        (true, w3.writeTree filename tree)

/-! ## Sample collaborators -/

/-- Sample values for the sistrip constants. -/
def sampleCode : RunType → Int
  | RunType.APV_TIMING => 5
  | RunType.OPTO_SCAN => 4
  | RunType.VPSP_SCAN => 14
  | RunType.FAST_CABLING => 21
  | RunType.PEDESTALS => 2
  | RunType.CURRENTSTATE => 90
  | RunType.LASTO2O => 91
  | RunType.MULTIPART => 92
  | RunType.UNKNOWN_RUN_TYPE => 65535

/-- A sample text-to-integer conversion: a text of decimal digits gives its
value, any other text gives 0. -/
def sampleToInt (s : String) : Int :=
  if s.data.all Char.isDigit then
    s.data.foldl (fun acc ch => 10 * acc + ((ch.toNat - 48 : Nat) : Int)) 0
  else 0

/-- A sample cell binding: a cell of the declared type is copied, any other cell
gives the zero value of the type. -/
def sampleSetFromResultset : BaseType → Cell → Cell
  | BaseType.Double, Cell.real q => Cell.real q
  | BaseType.Double, Cell.integer n => Cell.real n
  | BaseType.Double, _ => Cell.real 0
  | BaseType.Integer, Cell.integer n => Cell.integer n
  | BaseType.Integer, _ => Cell.integer 0
  | BaseType.String, Cell.text s => Cell.text s
  | BaseType.String, _ => Cell.text ""

/-- A sample column list, the same for every run type. -/
def sampleColumns : List Column :=
  [⟨"Detid", BaseType.Integer⟩, ⟨"DeviceId", BaseType.Integer⟩, ⟨"PedsMean", BaseType.Double⟩,
   ⟨"NoiseMean", BaseType.Double⟩, ⟨"Detector", BaseType.String⟩]

/-- A sample Pedestals result row, typed as the sample columns declare. -/
def samplePedestalsRow : List Cell :=
  [Cell.integer 369120277, Cell.integer 4711, Cell.real 100, Cell.real 2, Cell.text "TIB"]

/-- A mock of the collaborators: the database, connected or not as told,
returns the sample row for the Pedestals query bound to analysis id 7 and no
row for anything else. -/
def mockCollaborators (connected : Bool) : Collaborators where
  code := sampleCode
  toInt := sampleToInt
  cellToString := fun cell =>
    match cell with
    | Cell.text s => s
    | Cell.integer n => toString n
    | _ => ""
  setExtendedQuery := fun _ => sampleColumns
  setFromResultset := sampleSetFromResultset
  dbConnected := connected
  exec := fun query binds =>
    if query = pedestalsQuery ∧ binds = [BindValue.integer 7] then [samplePedestalsRow] else []

/-- A store without any file, and no query executed yet. -/
def emptyWorld : World :=
  ⟨fun _ => none, []⟩

/-- A store holding one artifact at the given path, a DBTree with the sample
columns and one entry, and no query executed yet. -/
def cachedWorld (filename : String) : World :=
  ⟨fun p => if p = filename then some ⟨[⟨"DBTree", sampleColumns, [samplePedestalsRow]⟩]⟩ else none,
   []⟩

/-! ## Analysis lookups of the multi-partition build -/

/-- The rows that the lookup of buildMultiPartTree returns for one run id. -/
def lookupRows (c : Collaborators) (runId : QRunId) : List (List Cell) :=
  c.exec analysisLookupQuery [BindValue.text runId.1, BindValue.text runId.2]

/-- The lookup of one run id as it appears in the record of executed queries. -/
def lookupRecord (runId : QRunId) : String × List BindValue :=
  (analysisLookupQuery, [BindValue.text runId.1, BindValue.text runId.2])

/-- The analysis id that the lookup loop keeps for a run id: cell 0 of the last
row read, the empty text when there is no row. -/
def resolvedId (c : Collaborators) (runId : QRunId) : String :=
  match (lookupRows c runId).getLast? with
  | some row => c.cellToString (value row 0)
  | none => ""

/-- The analysis type that the lookup loop keeps for a run id: cell 1 of the
last row read, the empty text when there is no row. -/
def resolvedType (c : Collaborators) (runId : QRunId) : String :=
  match (lookupRows c runId).getLast? with
  | some row => c.cellToString (value row 1)
  | none => ""

/-- The rows that one execution of a query for an analysis id fills into the
tree. -/
def filledRows (c : Collaborators) (columns : List Column) (theQuery : String)
    (analysisId : String) : List (List Cell) :=
  (c.exec theQuery [BindValue.integer (c.toInt analysisId)]).map (bindRow c columns)

/-- A mock database for the multi-partition build: the analysis lookup knows
four runs, of analysis types TIMING, PEDESTALS, TIMING and TIMING, and the
Timing query returns two rows for analysis 11, none for 12 and one each for 13
and 14. -/
def multiPartMock : Collaborators :=
  { mockCollaborators true with
    exec := fun query binds =>
      if query = analysisLookupQuery then
        (if binds = [BindValue.text "TIB", BindValue.text "1"] then
          [[Cell.integer 11, Cell.text "TIMING"]]
        else if binds = [BindValue.text "TOB", BindValue.text "2"] then
          [[Cell.integer 12, Cell.text "PEDESTALS"]]
        else if binds = [BindValue.text "TECP", BindValue.text "3"] then
          [[Cell.integer 13, Cell.text "TIMING"]]
        else if binds = [BindValue.text "TECM", BindValue.text "4"] then
          [[Cell.integer 14, Cell.text "TIMING"]]
        else [])
      else if query = timingQuery then
        (if binds = [BindValue.integer 11] then
          [[Cell.integer 1, Cell.integer 101, Cell.real 1, Cell.real 2, Cell.text "TIB"],
           [Cell.integer 2, Cell.integer 102, Cell.real 3, Cell.real 4, Cell.text "TIB"]]
        else if binds = [BindValue.integer 13] then
          [[Cell.integer 3, Cell.integer 103, Cell.real 5, Cell.real 6, Cell.text "TECP"]]
        else if binds = [BindValue.integer 14] then
          [[Cell.integer 4, Cell.integer 104, Cell.real 7, Cell.real 8, Cell.text "TECM"]]
        else [])
      else [] }

/-- The four run ids known to the multi-partition mock. -/
def fourRunIds : List QRunId :=
  [("TIB", "1"), ("TOB", "2"), ("TECP", "3"), ("TECM", "4")]

/-! ## The strip decoder -/

/-- QByteArray::mid(pos, len): at most len characters from position pos on;
empty when pos is at or beyond the end. -/
def QByteArray.mid (array : List Char) (pos len : Nat) : List Char :=
  (array.drop pos).take len

/-- The lowercase hexadecimal digit of a number below 16. -/
def hexDigit (n : Nat) : Char :=
  "0123456789abcdef".data.getD n '0'

/-- QByteArray::toHex: two lowercase hexadecimal digits per byte, high nibble
first. -/
def QByteArray.toHex : List Nat → List Char
  | [] => []
  | b :: rest => hexDigit (b / 16 % 16) :: hexDigit (b % 16) :: QByteArray.toHex rest

/-- The value of a base64 character, none for any other character. -/
def base64Value (ch : Char) : Option Nat :=
  if 'A' ≤ ch ∧ ch ≤ 'Z' then some (ch.toNat - 'A'.toNat)
  else if 'a' ≤ ch ∧ ch ≤ 'z' then some (ch.toNat - 'a'.toNat + 26)
  else if '0' ≤ ch ∧ ch ≤ '9' then some (ch.toNat - '0'.toNat + 52)
  else if ch = '+' then some 62
  else if ch = '/' then some 63
  else none

/-- The loop of QByteArray::fromBase64: six bits are shifted into buf per valid
character, and a byte is emitted whenever eight or more bits are pending;
characters outside the alphabet, the padding included, are skipped. -/
def fromBase64Loop : List Char → Nat → Nat → List Nat
  | [], _, _ => []
  | ch :: rest, buf, nbits =>
    match base64Value ch with
    | none => fromBase64Loop rest buf nbits
    | some d =>
      if nbits + 6 ≥ 8 then
        ((buf * 64 + d) >>> (nbits + 6 - 8)) % 256
          :: fromBase64Loop rest ((buf * 64 + d) % 2 ^ (nbits + 6 - 8)) (nbits + 6 - 8)
      else fromBase64Loop rest (buf * 64 + d) (nbits + 6)

/-- QByteArray::fromBase64: the bytes encoded by a base64 text. -/
def QByteArray.fromBase64 (base64 : List Char) : List Nat :=
  fromBase64Loop base64 0 0

/-- The value of a hexadecimal digit, none for any other character. -/
def hexValue (ch : Char) : Option Nat :=
  if '0' ≤ ch ∧ ch ≤ '9' then some (ch.toNat - '0'.toNat)
  else if 'a' ≤ ch ∧ ch ≤ 'f' then some (ch.toNat - 'a'.toNat + 10)
  else if 'A' ≤ ch ∧ ch ≤ 'F' then some (ch.toNat - 'A'.toNat + 10)
  else none

/-- Reading of a text of hexadecimal digits, most significant first, onto an
accumulator; none as soon as a character is not a hexadecimal digit. -/
def hexDigitsValue : List Char → Nat → Option Nat
  | [], acc => some acc
  | ch :: rest, acc =>
    match hexValue ch with
    | some d => hexDigitsValue rest (16 * acc + d)
    | none => none

/-- QByteArray::toLong(&ok, 16) on the texts the decoder hands to it, which
consist of hexadecimal digits: the value read, with long taken as 64 bits; an
empty text, a text with another character or a value that does not fit gives 0. -/
def QByteArray.toLong (text : List Char) : Nat :=
  if text = [] then 0
  else
    match hexDigitsValue text 0 with
    | some v => if v < 2 ^ 63 then v else 0
    | none => 0

/-- The inner loop of the strip decoder, for(k = mystrip.size(); k >= 0; k-=2)
mystrip2 += mystrip.mid(k,2): the character pairs of the window are appended
from the last to the first; k takes the values size - 2 j for j = 0 .. size / 2. -/
def reversePairs (mystrip : List Char) : List Char :=
  (List.range (mystrip.length / 2 + 1)).foldl
    (fun mystrip2 j => mystrip2 ++ QByteArray.mid mystrip (mystrip.length - 2 * j) 2) []

/-- The integer strip read from window number index of the hex text: the
window array.mid(i,8) at i = 8 * index, its byte pairs reversed, parsed as a
hexadecimal number. -/
def stripAt (array : List Char) (index : Nat) : Nat :=
  QByteArray.toLong (reversePairs (QByteArray.mid array (8 * index) 8))

/-- The pedestal field of a strip, (strip >> 22) & 0x3FF. -/
def pedOf (strip : Nat) : Nat :=
  (strip >>> 22) &&& 0x3FF

/-- The noise field of a strip, (strip >> 13) & 0x1FF, in tenths. -/
def noiseFieldOf (strip : Nat) : Nat :=
  (strip >>> 13) &&& 0x1FF

/-- What getState takes from outside the sources beyond the collaborators of
buildTree: the debug switch, the error flag of an executed query, the QVariant
conversions, and the rounding of a quotient that is held in a float. -/
structure StateCollaborators extends Collaborators where
  /-- Debug::Inst()->getEnabled() -/
  debugEnabled : Bool
  /-- QSqlQuery::lastError().isValid() after the query was executed -/
  lastErrorValid : String → List BindValue → Bool
  /-- QVariant::toDouble on a result cell -/
  cellToDouble : Cell → ℚ
  /-- QVariant::toUInt on a result cell -/
  cellToUInt : Cell → Nat
  /-- QVariant::toInt on a result cell -/
  cellToInt : Cell → Int
  /-- QVariant::toByteArray on a result cell -/
  cellToByteArray : Cell → List Char
  /-- the value of a quotient once it is stored in a float -/
  toFloat : ℚ → ℚ

/-- The buffers Noise[128] and Pedestal[128] of getState, as memory indexed from
the start of each array (the slots 0 to 127 are the arrays), and the strips for
which the diagnostic Would try to fill strip .. and will not do it! was
written. -/
structure StripState where
  Noise : Nat → ℚ
  Pedestal : Nat → ℚ
  refused : List Nat

/-- An array after the assignment a[index] = v. -/
def setSlot (a : Nat → ℚ) (index : Nat) (v : ℚ) : Nat → ℚ :=
  fun i => if i = index then v else a i

/-- One pass of the window loop of the strip decoder at window number index:
the noise and the pedestal of the strip are stored when index < 128; otherwise
nothing is stored and, with debugging enabled, a diagnostic is written. -/
def decodeWindow (c : StateCollaborators) (array : List Char) (st : StripState)
    (index : Nat) : StripState :=
  let strip := stripAt array index
  let noise := c.toFloat ((noiseFieldOf strip : ℚ) / 10)
  let ped := pedOf strip
  if index < 128 then
    { st with Noise := setSlot st.Noise index noise, Pedestal := setSlot st.Pedestal index ped }
  else if c.debugEnabled then { st with refused := st.refused ++ [strip] }
  else st

/-- The window loop of the strip decoder, for(i = 0; i < array.size(); i+=8,
++index): one pass per started window of eight characters. -/
def decodeStrips (c : StateCollaborators) (array : List Char) (st : StripState) : StripState :=
  (List.range ((array.length + 7) / 8)).foldl (decodeWindow c array) st

/-- The mean loop of getState over the 128 slots of a buffer: the slots are
added up from 0.0 and the sum is divided by 128.0. -/
def mean128 (slots : Nat → ℚ) : ℚ :=
  (List.range 128).foldl (fun acc i => acc + slots i) 0 / 128

/-! ## The state snapshot -/

/-- The branch values of one entry of the state tree. -/
structure StateEntry where
  FedId : ℚ
  FeUnit : ℚ
  FeChan : ℚ
  FeApv : ℚ
  Fec : ℚ
  Ring : ℚ
  Ccu : ℚ
  DeviceId : ℚ
  I2CChannel : ℚ
  I2CAddress : ℚ
  Detid : ℚ
  Noise : Nat → ℚ
  Pedestal : Nat → ℚ
  PedsMean : ℚ
  NoiseMean : ℚ
  FecKey : Nat

/-- The cells of an entry of the state tree in branch order; the branches Noise
and Pedestal contribute their 128 slots each. -/
def StateEntry.toCells (e : StateEntry) : List Cell :=
  [Cell.real e.FedId, Cell.real e.FeUnit, Cell.real e.FeChan, Cell.real e.FeApv,
   Cell.real e.Fec, Cell.real e.Ring, Cell.real e.Ccu, Cell.real e.DeviceId,
   Cell.real e.I2CChannel, Cell.real e.I2CAddress, Cell.real e.Detid]
    ++ (List.range 128).map (fun i => Cell.real (e.Noise i))
    ++ (List.range 128).map (fun i => Cell.real (e.Pedestal i))
    ++ [Cell.real e.PedsMean, Cell.real e.NoiseMean, Cell.integer e.FecKey]

/-- The branches booked by getState. -/
def stateBranches : List Column :=
  [⟨"FedId", BaseType.Double⟩, ⟨"FeUnit", BaseType.Double⟩, ⟨"FeChan", BaseType.Double⟩,
   ⟨"FeApv", BaseType.Double⟩, ⟨"Fec", BaseType.Double⟩, ⟨"Ring", BaseType.Double⟩,
   ⟨"Ccu", BaseType.Double⟩, ⟨"DeviceId", BaseType.Double⟩, ⟨"I2CChannel", BaseType.Double⟩,
   ⟨"I2CAddress", BaseType.Double⟩, ⟨"Detid", BaseType.Double⟩, ⟨"Noise", BaseType.Double⟩,
   ⟨"Pedestal", BaseType.Double⟩, ⟨"PedsMean", BaseType.Double⟩,
   ⟨"NoiseMean", BaseType.Double⟩, ⟨"FecKey", BaseType.Integer⟩]

/-- The device map of getState: each row of the device query maps its device id
to (detid, i2caddress), later rows replacing earlier ones; a device id without a
row maps to (0, 0). -/
def buildDevmap (c : StateCollaborators) (rows : List (List Cell)) : Nat → Nat × Int :=
  rows.foldl
    (fun devmap row => fun devid =>
      if devid = c.cellToUInt (value row 0) then
        (c.cellToUInt (value row 1), c.cellToInt (value row 2))
      else devmap devid)
    (fun _ => (0, 0))

/-- The body of the row loop of getState: the scalar branches are read from the
cells, the blob of cell 11 is base64-decoded, hex-encoded and run through the
strip decoder on the buffers as the previous row left them, and the means are
taken over the 128 slots of each buffer. -/
def fillStateRow (c : StateCollaborators) (devmap : Nat → Nat × Int) (row : List Cell)
    (st : StripState) : StateEntry × StripState :=
  let array := QByteArray.toHex (QByteArray.fromBase64 (c.cellToByteArray (value row 11)))
  let st1 := decodeStrips c array st
  ({ FedId := c.cellToDouble (value row 0)
     FeUnit := c.cellToDouble (value row 1)
     FeChan := c.cellToDouble (value row 2)
     FeApv := c.cellToDouble (value row 3)
     DeviceId := c.cellToDouble (value row 4)
     I2CAddress := c.cellToDouble (value row 5)
     I2CChannel := c.cellToDouble (value row 6)
     Ccu := c.cellToDouble (value row 7)
     Ring := c.cellToDouble (value row 8)
     Fec := c.cellToDouble (value row 9)
     FecKey := c.cellToUInt (value row 10) % 2 ^ 32
     Detid := ((devmap (c.cellToUInt (value row 4))).1 : ℚ)
     Noise := st1.Noise
     Pedestal := st1.Pedestal
     PedsMean := mean128 st1.Pedestal
     NoiseMean := mean128 st1.Noise },
   st1)

/-- The row loop of getState, while (getClob.next()): one entry per result row,
the buffers being carried from row to row. -/
def fillStateRows (c : StateCollaborators) (devmap : Nat → Nat × Int) :
    List (List Cell) → StripState → List StateEntry × StripState
  | [], st => ([], st)
  | row :: rest, st =>
    let (entry, st1) := fillStateRow c devmap row st
    let (entries, st2) := fillStateRows c devmap rest st1
    (entry :: entries, st2)

/-- The query text currentState of getState. -/
def currentState : String :=
  "with mypartition as ( select ? name from dual), myvalues as ( select fed.id fedid, fefpga.id feunit, channel.id fechan,apvfed.id apvfed, VALUE  from strip join apvfed on apvid=deviceid join channel using(channelid) join channelpair using(channelpairid) join fefpga using(fefpgaid) join fed using(fedid) join viewcurrentstate a on a.partitionname=( select name from mypartition) and a.partitionid=fed.partitionid and strip.versionmajorid=a.fedversionmajorid and apvid not in ( select deviceid from fedmaskdevice a join viewcurrentstate b on a.VERSIONMAJORID=b.MASKVERSIONMAJORID and a.VERSIONMINORID=b.MASKVERSIONMINORID) ), myconnections as ( select distinct FEDID, FEUNIT, FECHAN, DEVICEID, i2caddress, i2cchannel, ccuaddress, ringslot, fecslot, crateslot, CRATESLOT*power(2,27)+FECSLOT*power(2,22)+RINGSLOT*power(2,18)+CCUADDRESS*power(2,10)+I2CCHANNEL*power(2,5)+((ROUND((I2CADDRESS-.5)/2)-16)+1)*power(2,2)+(case when Mod(I2CADDRESS,2) = 0 then 1 else 2 end) FecKey from ANALYSISFASTFEDCABLING join analysis using(analysisid) join viewcurrentstate using(partitionid) join viewdevice using(deviceid) where viewdevice.partitionname=(select name from mypartition)  ) select myvalues.fedid fedid, myvalues.feunit feunit, myvalues.fechan fechan, myvalues.apvfed feapv, myconnections.deviceid, i2caddress,i2cchannel,ccuaddress,ringslot, fecslot, feckey , value from myvalues inner join myconnections on myvalues.fedid=myconnections.fedid and myvalues.feunit=myconnections.feunit and myvalues.fechan=myconnections.fechan and mod(APVFED,2) <> mod(I2CADDRESS,2) and value is not null order by myvalues.fedid,myvalues.feunit, myvalues.fechan"

/-- The query text lastO2O of getState. -/
def lastO2O : String :=
  "with mypartition as ( select ? name from dual), myvalues as ( select fed.id fedid, fefpga.id feunit, channel.id fechan,apvfed.id apvfed, VALUE  from strip join apvfed on apvid=deviceid join channel using(channelid) join channelpair using(channelpairid) join fefpga using(fefpgaid) join fed using(fedid) join VIEWLASTO2OPARTITIONS a on a.partitionname=( select name from mypartition) and a.partitionid=fed.partitionid and strip.versionmajorid=a.fedversionmajorid and apvid not in ( select deviceid from fedmaskdevice a join VIEWLASTO2OPARTITIONS b on a.VERSIONMAJORID=b.MASKVERSIONMAJORID and a.VERSIONMINORID=b.MASKVERSIONMINORID) ), myconnections as ( select distinct FEDID, FEUNIT, FECHAN, DEVICEID, i2caddress, i2cchannel, ccuaddress, ringslot, fecslot, crateslot, CRATESLOT*power(2,27)+FECSLOT*power(2,22)+RINGSLOT*power(2,18)+CCUADDRESS*power(2,10)+I2CCHANNEL*power(2,5)+((ROUND((I2CADDRESS-.5)/2)-16)+1)*power(2,2)+(case when Mod(I2CADDRESS,2) = 0 then 1 else 2 end) FecKey from ANALYSISFASTFEDCABLING join analysis using(analysisid) join VIEWLASTO2OPARTITIONS using(partitionid) join viewdevice using(deviceid) where viewdevice.partitionname=(select name from mypartition)  ) select myvalues.fedid fedid, myvalues.feunit feunit, myvalues.fechan fechan, myvalues.apvfed feapv, myconnections.deviceid, i2caddress,i2cchannel,ccuaddress,ringslot, fecslot, feckey , value from myvalues inner join myconnections on myvalues.fedid=myconnections.fedid and myvalues.feunit=myconnections.feunit and myvalues.fechan=myconnections.fechan and mod(APVFED,2) <> mod(I2CADDRESS,2) and value is not null order by myvalues.fedid,myvalues.feunit, myvalues.fechan"

/-- The device query text devmapstr of getState for a snapshot view and a
partition name. -/
def devmapstr (statestr partitionName : String) : String :=
  String.join [
    "select distinct a.deviceid, detid, a.i2caddress from device a join hybrid b on a.hybridid=b.hybridid join device c on b.hybridid=c.hybridid join dcu on c.deviceid=dcu.deviceid join ",
    statestr,
    " d on partitionname = \x27",
    partitionName,
    "\x27 and dcu.versionmajorid=d.fecversionmajorid and dcu.versionminorid=d.fecversionminorid join dcuinfo e on e.versionmajorid = d.dcuinfoversionmajorid and e.versionminorid= d.dcuinfoversionminorid and e.dcuhardid=dcu.dcuhardid and a.i2caddress in ( 32,33,34,35,36,37 ) order by detid, i2caddress"]

/-- Embedding of TreeBuilder::getState: an unknown state is refused; otherwise
the device map is read, the snapshot query of the state is executed for the
partition, and unless the query reports an error the state file is recreated,
one entry is filled per result row, the tree is written, and the answer is that
of buildTree on the file with the state code as analysis type and analysis id
and with useCache set. The buffers start with the contents st0, which the
source leaves uninitialised. -/
def getState (c : StateCollaborators) (partitionName : String) (state : Int) (st0 : StripState)
    (w : World) : Bool × World :=
  if state ≠ c.code RunType.CURRENTSTATE ∧ state ≠ c.code RunType.LASTO2O then (false, w)
  else
    let statestr := if state = c.code RunType.LASTO2O then "VIEWLASTO2OPARTITIONS"
      else "viewcurrentstate"
    let w1 := w.execute (devmapstr statestr partitionName) []
    let devmap := buildDevmap c (c.exec (devmapstr statestr partitionName) [])
    let clobQuery := if state = c.code RunType.CURRENTSTATE then currentState else lastO2O
    let binds := [BindValue.text partitionName]
    let w2 := w1.execute clobQuery binds
    if c.lastErrorValid clobQuery binds then (false, w2)
    else
      let path := "/opt/cmssw/shifter/avartak/data/"
      let name := if state = c.code RunType.LASTO2O then "LASTO2O_" ++ partitionName
        else "CURRENTSTATE_" ++ partitionName
      let w3 := w2.recreate (path ++ name ++ ".root")
      let entries := (fillStateRows c devmap (c.exec clobQuery binds) st0).1
      let tree : TTree := ⟨"DBTree", stateBranches, entries.map StateEntry.toCells⟩
      let w4 := w3.writeTree (path ++ name ++ ".root") tree
      buildTree c.toCollaborators (path ++ name ++ ".root") (QString.number state)
        (QString.number state) (partitionName, QString.number state) true w4

/-- Replacement of every occurrence of a pattern in a text, scanning from the
left; skip counts the characters of a replaced occurrence still to be passed
over. -/
def replaceFrom (pattern replacement : List Char) : Nat → List Char → List Char
  | _, [] => []
  | skip + 1, _ :: rest => replaceFrom pattern replacement skip rest
  | 0, ch :: rest =>
    if pattern.isPrefixOf (ch :: rest) then
      replacement ++ replaceFrom pattern replacement (pattern.length - 1) rest
    else ch :: replaceFrom pattern replacement 0 rest

/-- The text with every occurrence of the pattern replaced. -/
def replaceAll (pattern replacement : String) (text : String) : List Char :=
  replaceFrom pattern.data replacement.data 0 text.data

/-- A mock of the collaborators of getState: the snapshot queries return the
given rows, no query reports an error, the conversions read cells of the
matching type, and a float holds a quotient unchanged. -/
def stateMock (rows : List (List Cell)) : StateCollaborators :=
  { toCollaborators :=
      { mockCollaborators true with
        exec := fun query _ => if query = currentState ∨ query = lastO2O then rows else [] }
    debugEnabled := true
    lastErrorValid := fun _ _ => false
    cellToDouble := fun cell =>
      match cell with
      | Cell.real q => q
      | Cell.integer n => n
      | _ => 0
    cellToUInt := fun cell =>
      match cell with
      | Cell.integer n => n.toNat
      | _ => 0
    cellToInt := fun cell =>
      match cell with
      | Cell.integer n => n
      | _ => 0
    cellToByteArray := fun cell =>
      match cell with
      | Cell.text s => s.data
      | _ => []
    toFloat := fun q => q }

/-- Buffers holding zero in every slot, and no diagnostic written. -/
def zeroStripState : StripState :=
  ⟨fun _ => 0, fun _ => 0, []⟩

/-- A mock result row of the snapshot query with the given blob in cell 11. -/
def stateRow (blob : String) : List Cell :=
  [Cell.integer 50, Cell.integer 1, Cell.integer 2, Cell.integer 0, Cell.integer 4711,
   Cell.integer 32, Cell.integer 16, Cell.integer 4, Cell.integer 3, Cell.integer 2,
   Cell.integer 143397030, Cell.text blob]

/-- A blob of 128 strips, each with pedestal 100 and noise field 20
(the 32-bit value 0x19028000, bytes in little-endian order), base64-encoded. -/
def fullBlob : String :=
  "AIACGQCAAhkAgAIZAIACGQCAAhkAgAIZAIACGQCAAhkAgAIZAIACGQCAAhkAgAIZAIACGQCAAhkAgAIZAIACGQCAAhkAgAIZAIACGQCAAhkAgAIZAIACGQCAAhkAgAIZAIACGQCAAhkAgAIZAIACGQCAAhkAgAIZAIACGQCAAhkAgAIZAIACGQCAAhkAgAIZAIACGQCAAhkAgAIZAIACGQCAAhkAgAIZAIACGQCAAhkAgAIZAIACGQCAAhkAgAIZAIACGQCAAhkAgAIZAIACGQCAAhkAgAIZAIACGQCAAhkAgAIZAIACGQCAAhkAgAIZAIACGQCAAhkAgAIZAIACGQCAAhkAgAIZAIACGQCAAhkAgAIZAIACGQCAAhkAgAIZAIACGQCAAhkAgAIZAIACGQCAAhkAgAIZAIACGQCAAhkAgAIZAIACGQCAAhkAgAIZAIACGQCAAhkAgAIZAIACGQCAAhkAgAIZAIACGQCAAhkAgAIZAIACGQCAAhkAgAIZAIACGQCAAhkAgAIZAIACGQCAAhkAgAIZAIACGQCAAhkAgAIZAIACGQCAAhkAgAIZAIACGQCAAhkAgAIZAIACGQCAAhkAgAIZAIACGQCAAhkAgAIZAIACGQCAAhkAgAIZAIACGQCAAhkAgAIZAIACGQCAAhkAgAIZAIACGQCAAhk="

/-- The blob fullBlob followed by a 129th strip (pedestal 7, noise field 5). -/
def overlongBlob : String :=
  "AIACGQCAAhkAgAIZAIACGQCAAhkAgAIZAIACGQCAAhkAgAIZAIACGQCAAhkAgAIZAIACGQCAAhkAgAIZAIACGQCAAhkAgAIZAIACGQCAAhkAgAIZAIACGQCAAhkAgAIZAIACGQCAAhkAgAIZAIACGQCAAhkAgAIZAIACGQCAAhkAgAIZAIACGQCAAhkAgAIZAIACGQCAAhkAgAIZAIACGQCAAhkAgAIZAIACGQCAAhkAgAIZAIACGQCAAhkAgAIZAIACGQCAAhkAgAIZAIACGQCAAhkAgAIZAIACGQCAAhkAgAIZAIACGQCAAhkAgAIZAIACGQCAAhkAgAIZAIACGQCAAhkAgAIZAIACGQCAAhkAgAIZAIACGQCAAhkAgAIZAIACGQCAAhkAgAIZAIACGQCAAhkAgAIZAIACGQCAAhkAgAIZAIACGQCAAhkAgAIZAIACGQCAAhkAgAIZAIACGQCAAhkAgAIZAIACGQCAAhkAgAIZAIACGQCAAhkAgAIZAIACGQCAAhkAgAIZAIACGQCAAhkAgAIZAIACGQCAAhkAgAIZAIACGQCAAhkAgAIZAIACGQCAAhkAgAIZAIACGQCAAhkAgAIZAIACGQCAAhkAgAIZAIACGQCAAhkAgAIZAIACGQCAAhkAgAIZAIACGQCAAhkAgAIZAIACGQCAAhkAoMAB"

/-! ## Canonical labels and the loading of an analysis -/

/-- Embedding of TreeBuilder::sRunType: the canonical label of an analysis type
text, by the same exact comparisons as iRunType. -/
def sRunType (analysisType : String) : String :=
  if analysisType = "TIMING" then "TIMING"
  else if analysisType = "OPTOSCAN" ∨ analysisType = "GAINSCAN" then "OPTOSCAN"
  else if analysisType = "VPSPSCAN" then "VPSPSCAN"
  else if analysisType = "VERY_FAST_CONNECTION" ∨ analysisType = "FASTFEDCABLING" then
    "FASTFEDCABLING"
  else if analysisType = "PEDESTALS" ∨ analysisType = "PEDESTAL" then "PEDESTALS"
  else if analysisType = "CURRENT" ∨ analysisType = "CURRENTSTATE" then "CURRENT"
  else "UNKNOWN"

/-- Splitting of a list of characters at every occurrence of a separator
character, empty parts kept; a text without the separator is its only part. -/
def splitChars (sep : Char) : List Char → List (List Char)
  | [] => [[]]
  | ch :: rest =>
    if ch = sep then [] :: splitChars sep rest
    else
      match splitChars sep rest with
      | part :: parts => (ch :: part) :: parts
      | [] => [[ch]]

/-- QString::split on a one-character separator with its default behaviour
(empty parts are kept). -/
def QString.split (sep : Char) (text : String) : List String :=
  (splitChars sep text.data).map String.mk

/-- The loop of loadAnalysis over the parts after the first one: each part is
split at the character #, a part that does not give exactly two subparts ends
the loop with none, otherwise the pair (subparts[0], subparts[1]) is pushed. -/
def multiPartRunIds : List String → List QRunId → Option (List QRunId)
  | [], runIds => some runIds
  | part :: rest, runIds =>
    let subparts := QString.split '#' part
    if subparts.length ≠ 2 then none
    else multiPartRunIds rest (runIds ++ [(subparts.getD 0 "", subparts.getD 1 "")])

/-- Embedding of TreeBuilder::loadAnalysis (the overload taking a QRunId): the
run field selects the CurrentState file, the LastSynchronized file, the
multi-partition file or, for any other run, the file of the analysis found by
the lookup; the file name is returned when the build succeeds and the empty
text otherwise. -/
def loadAnalysis (c : Collaborators) (pair : QRunId) (useCache : Bool) (w : World) :
    String × World :=
  if pair.2 = QString.number (c.code RunType.CURRENTSTATE) then
    let filename := "/opt/cmssw/shifter/avartak/data/" ++ ("CURRENTSTATE_" ++ pair.1 ++ ".root")
    let (res, w1) := buildTree c filename (QString.number (c.code RunType.CURRENTSTATE))
      (QString.number (c.code RunType.CURRENTSTATE))
      (pair.1, QString.number (c.code RunType.CURRENTSTATE)) true w
    (if res then filename else "", w1)
  else if pair.2 = QString.number (c.code RunType.LASTO2O) then
    let filename := "/opt/cmssw/shifter/avartak/data/" ++ ("LASTO2O_" ++ pair.1 ++ ".root")
    let (res, w1) := buildTree c filename (QString.number (c.code RunType.LASTO2O))
      (QString.number (c.code RunType.LASTO2O))
      (pair.1, QString.number (c.code RunType.LASTO2O)) true w
    (if res then filename else "", w1)
  else if pair.2 = QString.number (c.code RunType.MULTIPART) then
    let parts := QString.split '*' pair.1
    if parts.length ≠ 5 then ("", w)
    else
      let filenamestart := parts.getD 0 ""
      match multiPartRunIds (parts.drop 1) [] with
      | none => ("", w)
      | some runIds =>
        let filename := "/opt/cmssw/shifter/avartak/data/" ++ filenamestart ++ "_FOURPARTS.root"
        let (res, w1) := buildMultiPartTree c filename runIds w
        (if res then filename else "", w1)
  else
    let w1 := if c.dbConnected then w.execute analysisLookupQuery
        [BindValue.text pair.1, BindValue.text pair.2] else w
    let analysisId := if c.dbConnected then resolvedId c pair else ""
    let analysisType := if c.dbConnected then resolvedType c pair else ""
    let result := c.dbConnected && ((lookupRows c pair).length == 1)
    let filename := "/opt/cmssw/shifter/avartak/data/" ++ analysisType ++ "_" ++ pair.1 ++ "_"
      ++ QString.number (c.toInt pair.2) ++ "_new.root"
    if result then
      let (res, w2) := buildTree c filename analysisType analysisId pair useCache w1
      (if res then filename else "", w2)
    else ("", w1)

/-- The partition field of a multi-partition run key is well formed: it splits
at * into exactly five parts, and each of the last four parts splits at # into
exactly two parts. -/
def multiPartWellFormed (partition : String) : Prop :=
  (QString.split '*' partition).length = 5 ∧
  ∀ part ∈ (QString.split '*' partition).drop 1, (QString.split '#' part).length = 2

instance (partition : String) : Decidable (multiPartWellFormed partition) := by
  unfold multiPartWellFormed; infer_instance

/-- The (partition, run) pairs named by the parts after the first one of a
multi-partition partition field, in order. -/
def multiPartPairs (partition : String) : List QRunId :=
  ((QString.split '*' partition).drop 1).map
    (fun part => ((QString.split '#' part).getD 0 "", (QString.split '#' part).getD 1 ""))

/-- The artifact path of a multi-partition run key: the fixed root, the first
part of the partition field, and _FOURPARTS.root. -/
def multiPartPath (partition : String) : String :=
  "/opt/cmssw/shifter/avartak/data/" ++ (QString.split '*' partition).getD 0 ""
    ++ "_FOURPARTS.root"

/-! ## Single-precision storage of the noise -/

/-- The power of two with an integer exponent, as a rational. -/
def pow2 (e : ℤ) : ℚ :=
  if 0 ≤ e then ((2 ^ e.toNat : Nat) : ℚ) else 1 / ((2 ^ (-e).toNat : Nat) : ℚ)

/-- The number of halvings that bring a natural number below 2, counted with a
bound on the number of steps. -/
def halvings : Nat → Nat → Nat
  | 0, _ => 0
  | fuel + 1, n => if 2 ≤ n then halvings fuel (n / 2) + 1 else 0

/-- The binary logarithm of a positive natural number, rounded down. -/
def natLog2 (n : Nat) : Nat :=
  halvings n n

/-- The binary exponent of a positive rational q: the integer e with
2^e <= q < 2^(e+1). -/
def floorLog2 (q : ℚ) : ℤ :=
  let e0 : ℤ := (natLog2 q.num.toNat : ℤ) - (natLog2 q.den : ℤ)
  if pow2 e0 ≤ q then e0 else e0 - 1

/-- Rounding of a nonnegative rational to the nearest integer, ties to the even
one. -/
def roundHalfEven (s : ℚ) : ℤ :=
  if s - ⌊s⌋ < 1 / 2 then ⌊s⌋
  else if 1 / 2 < s - ⌊s⌋ then ⌊s⌋ + 1
  else if ⌊s⌋ % 2 = 0 then ⌊s⌋ else ⌊s⌋ + 1

/-- Rounding of a rational to the nearest binary floating-point number with a
significand of p bits, ties to even, with the exponent range taken as unbounded
(no overflow and no subnormal numbers, as for the quotients 0 to 51.1 of the
decoder). -/
def roundToBits (p : Nat) (q : ℚ) : ℚ :=
  if q = 0 then 0
  else if q < 0 then
    -((roundHalfEven (-q * pow2 ((p : ℤ) - 1 - floorLog2 (-q))) : ℚ)
        / pow2 ((p : ℤ) - 1 - floorLog2 (-q)))
  else
    (roundHalfEven (q * pow2 ((p : ℤ) - 1 - floorLog2 q)) : ℚ)
      / pow2 ((p : ℤ) - 1 - floorLog2 q)

/-- The value held by float noise = static_cast<float>(field) / 10.0 for the
exact quotient q = field / 10: the division is carried out in double precision
(53 bits) and the result is narrowed to a float (24 bits). -/
def floatOfQuotient (q : ℚ) : ℚ :=
  roundToBits 24 (roundToBits 53 q)

/-- The mock of the collaborators of getState with the float storage of the
noise as the source has it. -/
def floatStateMock : StateCollaborators :=
  { stateMock [] with toFloat := floatOfQuotient }

/-! ## Properties of the run-type dispatch and of the queries -/

/-- C1: iRunType is a total function that agrees with the fixed alias table:
it gives Timing exactly for TIMING, OptoScan exactly for OPTOSCAN and GAINSCAN,
VpspScan exactly for VPSPSCAN, FastCabling exactly for VERY_FAST_CONNECTION and
FASTFEDCABLING, Pedestals exactly for PEDESTALS and PEDESTAL, CurrentState
exactly for CURRENT and CURRENTSTATE, and Unknown for every other text; the
match is case-sensitive, so the text timing gives Unknown. -/
theorem iRunType_alias_table (s : String) :
    (iRunType s = RunType.APV_TIMING ↔ s = "TIMING") ∧
    (iRunType s = RunType.OPTO_SCAN ↔ (s = "OPTOSCAN" ∨ s = "GAINSCAN")) ∧
    (iRunType s = RunType.VPSP_SCAN ↔ s = "VPSPSCAN") ∧
    (iRunType s = RunType.FAST_CABLING ↔ (s = "VERY_FAST_CONNECTION" ∨ s = "FASTFEDCABLING")) ∧
    (iRunType s = RunType.PEDESTALS ↔ (s = "PEDESTALS" ∨ s = "PEDESTAL")) ∧
    (iRunType s = RunType.CURRENTSTATE ↔ (s = "CURRENT" ∨ s = "CURRENTSTATE")) ∧
    (iRunType s = RunType.UNKNOWN_RUN_TYPE ↔
      s ∉ ["TIMING", "OPTOSCAN", "GAINSCAN", "VPSPSCAN", "VERY_FAST_CONNECTION",
           "FASTFEDCABLING", "PEDESTALS", "PEDESTAL", "CURRENT", "CURRENTSTATE"]) ∧
    iRunType s ≠ RunType.LASTO2O ∧ iRunType s ≠ RunType.MULTIPART ∧
    iRunType "timing" = RunType.UNKNOWN_RUN_TYPE := by
  by_cases h1 : s = "TIMING"
  · subst h1; simp [iRunType]
  by_cases h2 : s = "OPTOSCAN"
  · subst h2; simp [iRunType]
  by_cases h3 : s = "GAINSCAN"
  · subst h3; simp [iRunType]
  by_cases h4 : s = "VPSPSCAN"
  · subst h4; simp [iRunType]
  by_cases h5 : s = "VERY_FAST_CONNECTION"
  · subst h5; simp [iRunType]
  by_cases h6 : s = "FASTFEDCABLING"
  · subst h6; simp [iRunType]
  by_cases h7 : s = "PEDESTALS"
  · subst h7; simp [iRunType]
  by_cases h8 : s = "PEDESTAL"
  · subst h8; simp [iRunType]
  by_cases h9 : s = "CURRENT"
  · subst h9; simp [iRunType]
  by_cases h10 : s = "CURRENTSTATE"
  · subst h10; simp [iRunType]
  simp [iRunType, h1, h2, h3, h4, h5, h6, h7, h8, h9, h10]

theorem placeholderCount_timingQuery : placeholderCount timingQuery = 1 := by
  unfold placeholderCount timingQuery
  rw [String.data_join]
  decide!

theorem placeholderCount_optoScanQuery : placeholderCount optoScanQuery = 1 := by
  unfold placeholderCount optoScanQuery
  rw [String.data_join]
  decide!

theorem placeholderCount_vpspScanQuery : placeholderCount vpspScanQuery = 1 := by
  unfold placeholderCount vpspScanQuery
  rw [String.data_join]
  decide!

theorem placeholderCount_fastCablingQuery : placeholderCount fastCablingQuery = 1 := by
  unfold placeholderCount fastCablingQuery
  rw [String.data_join]
  decide!

theorem placeholderCount_pedestalsQuery : placeholderCount pedestalsQuery = 1 := by
  unfold placeholderCount pedestalsQuery
  rw [String.data_join]
  decide!

/-- C2: for every analysis type text of a data-bearing kind (TIMING, OPTOSCAN,
GAINSCAN, VPSPSCAN, VERY_FAST_CONNECTION, FASTFEDCABLING, PEDESTALS, PEDESTAL)
the text returned by getQuery contains exactly one bind placeholder ?. -/
theorem getQuery_one_placeholder (analysisType : String)
    (h : analysisType ∈ dataBearingTypes) :
    placeholderCount (getQuery analysisType) = 1 := by
  simp only [dataBearingTypes, List.mem_cons, List.mem_singleton, List.not_mem_nil,
    or_false] at h
  rcases h with h | h | h | h | h | h | h | h <;> subst h
  · simpa [getQuery] using placeholderCount_timingQuery
  · simpa [getQuery] using placeholderCount_optoScanQuery
  · simpa [getQuery] using placeholderCount_optoScanQuery
  · simpa [getQuery] using placeholderCount_vpspScanQuery
  · simpa [getQuery] using placeholderCount_fastCablingQuery
  · simpa [getQuery] using placeholderCount_fastCablingQuery
  · simpa [getQuery] using placeholderCount_pedestalsQuery
  · simpa [getQuery] using placeholderCount_pedestalsQuery

/-- Witness of C2 at the alias GAINSCAN. -/
theorem getQuery_one_placeholder_witness :
    "GAINSCAN" ∈ dataBearingTypes ∧ placeholderCount (getQuery "GAINSCAN") = 1 :=
  ⟨by decide, getQuery_one_placeholder "GAINSCAN" (by decide)⟩

theorem getQuery_eq_queryOfRunType (s : String) :
    getQuery s = queryOfRunType (iRunType s) := by
  unfold getQuery iRunType
  split_ifs <;> rfl

/-- C3: getQuery depends only on the analysis kind: two analysis type texts of
the same kind (equal iRunType) get byte-identical query texts, and a text whose
kind is Unknown gets the empty text. -/
theorem getQuery_depends_only_on_kind :
    (∀ a b : String, iRunType a = iRunType b → getQuery a = getQuery b) ∧
    (∀ s : String, iRunType s = RunType.UNKNOWN_RUN_TYPE → getQuery s = "") := by
  refine ⟨fun a b h => ?_, fun s h => ?_⟩
  · rw [getQuery_eq_queryOfRunType, getQuery_eq_queryOfRunType, h]
  · rw [getQuery_eq_queryOfRunType, h]; rfl

/-- Witness of C3 at the two OptoScan aliases and at an unknown text. -/
theorem getQuery_depends_only_on_kind_witness :
    (iRunType "OPTOSCAN" = iRunType "GAINSCAN" ∧ getQuery "OPTOSCAN" = getQuery "GAINSCAN") ∧
    (iRunType "timing" = RunType.UNKNOWN_RUN_TYPE ∧ getQuery "timing" = "") :=
  ⟨⟨by decide, getQuery_depends_only_on_kind.1 "OPTOSCAN" "GAINSCAN" (by decide)⟩,
   ⟨by decide, getQuery_depends_only_on_kind.2 "timing" (by decide)⟩⟩

/-- The search occursIn decides the infix relation of lists. -/
theorem occursIn_iff (needle hay : List Char) :
    occursIn needle hay = true ↔ needle <:+: hay := by
  induction hay with
  | nil => simp [occursIn, List.isEmpty_iff]
  | cons c cs ih =>
    simp only [occursIn, Bool.or_eq_true, ih, List.isPrefixOf_iff_prefix]
    rw [List.infix_cons_iff]

/-- C4: at the analysis types PEDESTALS and PEDESTAL the query built by getQuery
joins DCU on b.DEVICEID = DCU.DEVICEID alone: the text mentions neither
VERSIONMAJORID nor VERSIONMINORID anywhere, so the DCU join is not gated by the
version-history snapshot, while the queries of the four sibling kinds (Timing,
OptoScan, VpspScan, FastCabling) do carry both version conditions. -/
theorem getQuery_pedestals_dcu_not_version_gated :
    (occursIn "VERSIONMAJORID".data (getQuery "PEDESTALS").data = false ∧
     occursIn "VERSIONMINORID".data (getQuery "PEDESTALS").data = false ∧
     dcuVersionGated (getQuery "PEDESTALS") = false) ∧
    getQuery "PEDESTAL" = getQuery "PEDESTALS" ∧
    (dcuVersionGated (getQuery "TIMING") = true ∧
     dcuVersionGated (getQuery "OPTOSCAN") = true ∧
     dcuVersionGated (getQuery "VPSPSCAN") = true ∧
     dcuVersionGated (getQuery "FASTFEDCABLING") = true) := by
  have hp : getQuery "PEDESTALS" = pedestalsQuery := by simp [getQuery]
  have ht : getQuery "TIMING" = timingQuery := by simp [getQuery]
  have ho : getQuery "OPTOSCAN" = optoScanQuery := by simp [getQuery]
  have hv : getQuery "VPSPSCAN" = vpspScanQuery := by simp [getQuery]
  have hf : getQuery "FASTFEDCABLING" = fastCablingQuery := by simp [getQuery]
  refine ⟨?_, by simp [getQuery], ?_, ?_, ?_, ?_⟩
  · rw [hp]
    unfold dcuVersionGated despace pedestalsQuery
    rw [String.data_join]
    decide!
  · rw [ht]
    unfold dcuVersionGated despace timingQuery
    rw [String.data_join]
    decide!
  · rw [ho]
    unfold dcuVersionGated despace optoScanQuery
    rw [String.data_join]
    decide!
  · rw [hv]
    unfold dcuVersionGated despace vpspScanQuery
    rw [String.data_join]
    decide!
  · rw [hf]
    unfold dcuVersionGated despace fastCablingQuery
    rw [String.data_join]
    decide!

/-! ## The FecKey expression against the shift-and-OR formula -/

theorem shiftLeft_or_eq_add (x y k : Nat) (h : y < 2 ^ k) : x <<< k ||| y = x * 2 ^ k + y := by
  rw [Nat.shiftLeft_eq, Nat.mul_comm, ← Nat.mul_add_lt_is_or h]

theorem sqlRound_lasChan (a : Nat) (h1 : 30 ≤ a) (h2 : a ≤ 45) :
    sqlRound (((a : ℚ) - 1 / 2) / 2) = (((2 * a + 1) / 4 : Nat) : ℤ) := by
  interval_cases a <;> decide!

theorem packed_or_eq_add (c f r u ch L p : Nat) (hf : f < 32) (hr : r < 16) (hu : u < 256)
    (hch : ch < 32) (hL : L < 8) (hp : p < 4) :
    c <<< 27 ||| f <<< 22 ||| r <<< 18 ||| u <<< 10 ||| ch <<< 5 ||| L <<< 2 ||| p
      = c * 2 ^ 27 + f * 2 ^ 22 + r * 2 ^ 18 + u * 2 ^ 10 + ch * 2 ^ 5 + L * 2 ^ 2 + p := by
  simp only [Nat.lor_assoc]
  have e6 : L <<< 2 ||| p = L * 2 ^ 2 + p := shiftLeft_or_eq_add L p 2 (by omega)
  have e5 : ch <<< 5 ||| (L * 2 ^ 2 + p) = ch * 2 ^ 5 + (L * 2 ^ 2 + p) :=
    shiftLeft_or_eq_add _ _ 5 (by omega)
  have e4 : u <<< 10 ||| (ch * 2 ^ 5 + (L * 2 ^ 2 + p))
      = u * 2 ^ 10 + (ch * 2 ^ 5 + (L * 2 ^ 2 + p)) :=
    shiftLeft_or_eq_add _ _ 10 (by omega)
  have e3 : r <<< 18 ||| (u * 2 ^ 10 + (ch * 2 ^ 5 + (L * 2 ^ 2 + p)))
      = r * 2 ^ 18 + (u * 2 ^ 10 + (ch * 2 ^ 5 + (L * 2 ^ 2 + p))) :=
    shiftLeft_or_eq_add _ _ 18 (by omega)
  have e2 : f <<< 22 ||| (r * 2 ^ 18 + (u * 2 ^ 10 + (ch * 2 ^ 5 + (L * 2 ^ 2 + p))))
      = f * 2 ^ 22 + (r * 2 ^ 18 + (u * 2 ^ 10 + (ch * 2 ^ 5 + (L * 2 ^ 2 + p)))) :=
    shiftLeft_or_eq_add _ _ 22 (by omega)
  have e1 : c <<< 27 ||| (f * 2 ^ 22 + (r * 2 ^ 18 + (u * 2 ^ 10 + (ch * 2 ^ 5 + (L * 2 ^ 2 + p)))))
      = c * 2 ^ 27 + (f * 2 ^ 22 + (r * 2 ^ 18 + (u * 2 ^ 10 + (ch * 2 ^ 5 + (L * 2 ^ 2 + p))))) :=
    shiftLeft_or_eq_add _ _ 27 (by omega)
  rw [e6, e5, e4, e3, e2, e1]
  omega

/-- C5: for every hardware address whose fields fit their bit widths
(fecSlot < 32, ringSlot < 16, ccuAddress < 256, i2cChannel < 32,
30 <= i2cAddress <= 45) the FecKey expression of the queries, a sum of
products with powers of two, equals the shift-and-OR formula of the
specification, and at crateSlot=1, fecSlot=2, ringSlot=3, ccuAddress=4,
i2cChannel=5, i2cAddress=33 both give 143397030. -/
theorem fecKeyExpr_eq_fecKeySpec (crateSlot fecSlot ringSlot ccuAddress i2cChannel i2cAddress : Nat)
    (hfec : fecSlot < 32) (hring : ringSlot < 16) (hccu : ccuAddress < 256)
    (hchan : i2cChannel < 32) (hlo : 30 ≤ i2cAddress) (hhi : i2cAddress ≤ 45) :
    fecKeyExpr crateSlot fecSlot ringSlot ccuAddress i2cChannel i2cAddress
      = (fecKeySpec crateSlot fecSlot ringSlot ccuAddress i2cChannel i2cAddress : ℤ) ∧
    fecKeyExpr 1 2 3 4 5 33 = 143397030 ∧ fecKeySpec 1 2 3 4 5 33 = 143397030 := by
  refine ⟨?_, by decide!, by decide!⟩
  unfold fecKeyExpr fecKeySpec
  rw [sqlRound_lasChan i2cAddress hlo hhi]
  have hL : ((((2 * i2cAddress + 1) / 4 : Nat) : ℤ) - 16 + 1).toNat = (2 * i2cAddress + 1) / 4 - 15 := by
    omega
  have hp : (if i2cAddress % 2 = 0 then 1 else 2) < 4 := by split_ifs <;> omega
  rw [hL, packed_or_eq_add _ _ _ _ _ _ _ hfec hring hccu hchan (by omega) hp]
  push_cast
  split_ifs <;> omega

/-- Witness of C5 at the address of the worked example. -/
theorem fecKeyExpr_eq_fecKeySpec_witness :
    (2 < 32 ∧ 3 < 16 ∧ 4 < 256 ∧ 5 < 32 ∧ 30 ≤ 33 ∧ 33 ≤ 45) ∧
    (fecKeyExpr 1 2 3 4 5 33 = (fecKeySpec 1 2 3 4 5 33 : ℤ) ∧
     fecKeyExpr 1 2 3 4 5 33 = 143397030 ∧ fecKeySpec 1 2 3 4 5 33 = 143397030) :=
  ⟨by decide, fecKeyExpr_eq_fecKeySpec 1 2 3 4 5 33 (by decide) (by decide) (by decide)
    (by decide) (by decide) (by decide)⟩

/-! ## Properties of buildTree and buildMultiPartTree -/

/-- C6: for every path, analysis type, analysis id and run key, when an artifact
exists at the path, its tree has at least one entry and useCache is true,
buildTree returns true and leaves the state as it was: no query is executed and
no file is touched. -/
theorem buildTree_reuses_sane_tree (c : Collaborators) (filename analysisType analysisId : String)
    (runId : QRunId) (w : World) (file : TFile) (tree : TTree)
    (hfile : w.files filename = some file) (hkey : file.keys.head? = some tree)
    (hrows : 1 ≤ tree.entries.length) :
    buildTree c filename analysisType analysisId runId true w = (true, w) := by
  have hsane : treeIsSane w filename = true := by
    unfold treeIsSane firstTree
    rw [hfile]
    simp only [hkey]
    have hne : tree.entries.length ≠ 0 := by omega
    simpa using hne
  simp [buildTree, hsane]

/-- Witness of C6: the cached sample artifact is reused. -/
theorem buildTree_reuses_sane_tree_witness :
    buildTree (mockCollaborators true) "PEDESTALS_TIB_1_new.root" "PEDESTALS" "7" ("TIB", "1") true
      (cachedWorld "PEDESTALS_TIB_1_new.root")
      = (true, cachedWorld "PEDESTALS_TIB_1_new.root") :=
  buildTree_reuses_sane_tree (mockCollaborators true) "PEDESTALS_TIB_1_new.root" "PEDESTALS" "7"
    ("TIB", "1") (cachedWorld "PEDESTALS_TIB_1_new.root")
    ⟨[⟨"DBTree", sampleColumns, [samplePedestalsRow]⟩]⟩
    ⟨"DBTree", sampleColumns, [samplePedestalsRow]⟩ (by simp [cachedWorld]) rfl (by decide)

/-- C7, counterexample: with the CurrentState code as analysis id and in the run
key, a sane cached artifact and useCache set, buildTree returns true, not false;
and a run key carrying the CurrentState code does not stop the rebuild when the
analysis id is another one, because buildTree never looks at the run key. -/
theorem buildTree_state_key_not_always_false :
    (buildTree (mockCollaborators true) "CURRENTSTATE_TIB.root"
        (QString.number (sampleCode RunType.CURRENTSTATE))
        (QString.number (sampleCode RunType.CURRENTSTATE))
        ("TIB", QString.number (sampleCode RunType.CURRENTSTATE)) true
        (cachedWorld "CURRENTSTATE_TIB.root")).1 = true ∧
    (buildTree (mockCollaborators true) "PEDESTALS_TIB_90_new.root" "PEDESTALS" "7"
        ("TIB", QString.number (sampleCode RunType.CURRENTSTATE)) false emptyWorld).1 = true ∧
    (buildTree (mockCollaborators true) "PEDESTALS_TIB_90_new.root" "PEDESTALS" "7"
        ("TIB", QString.number (sampleCode RunType.CURRENTSTATE)) false emptyWorld).2.executed
      = [(pedestalsQuery, [BindValue.integer 7])] := by
  refine ⟨?_, ?_, ?_⟩
  · simp [buildTree, treeIsSane, firstTree, cachedWorld]
  · have h7 : ("7" : String) ≠ QString.number (sampleCode RunType.CURRENTSTATE) := by decide
    have h7c : ("7" : String) ≠ QString.fromQChar (sampleCode RunType.LASTO2O) := by decide
    simp [buildTree, treeIsSane, firstTree, emptyWorld, mockCollaborators, h7, h7c]
  · have h7 : ("7" : String) ≠ QString.number (sampleCode RunType.CURRENTSTATE) := by decide
    have h7c : ("7" : String) ≠ QString.fromQChar (sampleCode RunType.LASTO2O) := by decide
    have hi : sampleToInt "7" = 7 := by decide
    simp [buildTree, treeIsSane, firstTree, emptyWorld, mockCollaborators, h7, h7c, fillTree,
      fillLoop, World.execute, World.recreate, World.writeTree, getQuery, hi]

/-- C7, amended: for every call of buildTree whose analysis id is the
CurrentState code, for both values of useCache and every state of the artifact
store, no rebuild takes place (no file is recreated, no query is executed), and
the result is true exactly when useCache is set and the artifact at the path is a
sane tree, false otherwise. -/
theorem buildTree_currentState_never_rebuilds (c : Collaborators)
    (filename analysisType : String) (runId : QRunId) (useCache : Bool) (w : World) :
    buildTree c filename analysisType (QString.number (c.code RunType.CURRENTSTATE)) runId
      useCache w = (treeIsSane w filename && useCache, w) := by
  unfold buildTree
  by_cases h : (treeIsSane w filename && useCache) = true
  · simp [h]
  · rw [if_neg h]
    simp only [true_or, if_true]
    simp only [Bool.not_eq_true] at h
    rw [h]

/-- C8: evaluated with the database not connected and the non-state analysis id
7, buildTree takes the rebuild path and returns true, not false: fillTree
returns without filling, yet the file is recreated and an empty DBTree (no
branch, no entry) is written, both when no artifact existed (useCache true) and
over an existing sane artifact (useCache false); no query is executed. -/
theorem buildTree_offline_returns_true :
    ((buildTree (mockCollaborators false) "PEDESTALS_TIB_1_new.root" "PEDESTALS" "7"
        ("TIB", "1") true emptyWorld).1 = true ∧
     (buildTree (mockCollaborators false) "PEDESTALS_TIB_1_new.root" "PEDESTALS" "7"
        ("TIB", "1") true emptyWorld).2.files "PEDESTALS_TIB_1_new.root"
       = some ⟨[⟨"DBTree", [], []⟩]⟩) ∧
    ((buildTree (mockCollaborators false) "PEDESTALS_TIB_1_new.root" "PEDESTALS" "7"
        ("TIB", "1") false (cachedWorld "PEDESTALS_TIB_1_new.root")).1 = true ∧
     (buildTree (mockCollaborators false) "PEDESTALS_TIB_1_new.root" "PEDESTALS" "7"
        ("TIB", "1") false (cachedWorld "PEDESTALS_TIB_1_new.root")).2.files
          "PEDESTALS_TIB_1_new.root"
       = some ⟨[⟨"DBTree", [], []⟩]⟩ ∧
     (buildTree (mockCollaborators false) "PEDESTALS_TIB_1_new.root" "PEDESTALS" "7"
        ("TIB", "1") false (cachedWorld "PEDESTALS_TIB_1_new.root")).2.executed = []) := by
  have h7 : ("7" : String) ≠ QString.number (sampleCode RunType.CURRENTSTATE) := by decide
  have h7c : ("7" : String) ≠ QString.fromQChar (sampleCode RunType.LASTO2O) := by decide
  refine ⟨⟨?_, ?_⟩, ?_, ?_, ?_⟩ <;>
    simp [buildTree, treeIsSane, firstTree, emptyWorld, cachedWorld, mockCollaborators, h7, h7c,
      fillTree, World.recreate, World.writeTree]

theorem bindFrom_length (c : Collaborators) (row : List Cell) (columns : List Column) (i : Nat) :
    (bindFrom c row columns i).length = columns.length := by
  induction columns generalizing i with
  | nil => rfl
  | cons column rest ih => simp [bindFrom, ih]

theorem bindFrom_getElem? (c : Collaborators) (row : List Cell) (columns : List Column)
    (i j : Nat) (column : Column) (h : columns[j]? = some column) :
    (bindFrom c row columns i)[j]? = some (c.setFromResultset column.type (value row (i + j))) := by
  induction columns generalizing i j with
  | nil => simp at h
  | cons head rest ih =>
    cases j with
    | zero =>
      simp only [List.getElem?_cons_zero, Option.some.injEq] at h
      simp [bindFrom, h]
    | succ j =>
      simp only [List.getElem?_cons_succ] at h
      simp only [bindFrom, List.getElem?_cons_succ]
      rw [ih (i + 1) j h]
      congr 3
      omega

/-- C9: for every analysis type (the data-bearing kinds in particular) and every
analysis id that the state guard lets through, with the database connected and
no reusable artifact (none, an empty one, or useCache false), buildTree returns
true, executes the query of the analysis type once, bound to the integer value
of the analysis id, and persists a DBTree with the columns of the type and
exactly one entry per result row, in result order; each entry has one value per
column, the i-th being the i-th result cell as bound by the i-th column. -/
theorem buildTree_rebuild_rows (c : Collaborators) (filename analysisType analysisId : String)
    (runId : QRunId) (useCache : Bool) (w : World)
    (hid : analysisId ≠ QString.number (c.code RunType.CURRENTSTATE) ∧
      analysisId ≠ QString.fromQChar (c.code RunType.LASTO2O))
    (hconn : c.dbConnected = true)
    (hmiss : (treeIsSane w filename && useCache) = false) :
    (buildTree c filename analysisType analysisId runId useCache w).1 = true ∧
    (buildTree c filename analysisType analysisId runId useCache w).2.files filename
      = some ⟨[⟨"DBTree", c.setExtendedQuery analysisType,
          (c.exec (getQuery analysisType) [BindValue.integer (c.toInt analysisId)]).map
            (bindRow c (c.setExtendedQuery analysisType))⟩]⟩ ∧
    (buildTree c filename analysisType analysisId runId useCache w).2.executed
      = w.executed ++ [(getQuery analysisType, [BindValue.integer (c.toInt analysisId)])] ∧
    (∀ row : List Cell,
      (bindRow c (c.setExtendedQuery analysisType) row).length
        = (c.setExtendedQuery analysisType).length) ∧
    (∀ (row : List Cell) (i : Nat) (column : Column),
      (c.setExtendedQuery analysisType)[i]? = some column →
      (bindRow c (c.setExtendedQuery analysisType) row)[i]?
        = some (c.setFromResultset column.type (value row i))) := by
  obtain ⟨h1, h2⟩ := hid
  refine ⟨?_, ?_, ?_, ?_, ?_⟩
  · simp [buildTree, hmiss, h1, h2]
  · simp [buildTree, hmiss, h1, h2, fillTree, hconn, fillLoop, World.recreate, World.writeTree,
      World.execute]
  · simp [buildTree, hmiss, h1, h2, fillTree, hconn, fillLoop, World.recreate, World.writeTree,
      World.execute]
  · intro row
    exact bindFrom_length c row _ 0
  · intro row i column h
    have := bindFrom_getElem? c row _ 0 i column h
    simpa [bindRow] using this

/-- Witness of C9: with the mock database returning one Pedestals row for
analysis id 7, the rebuilt artifact holds exactly one entry, equal to that row. -/
theorem buildTree_rebuild_rows_witness :
    (("7" : String) ≠ QString.number ((mockCollaborators true).code RunType.CURRENTSTATE) ∧
      ("7" : String) ≠ QString.fromQChar ((mockCollaborators true).code RunType.LASTO2O)) ∧
    (mockCollaborators true).dbConnected = true ∧
    (treeIsSane emptyWorld "PEDESTALS_TIB_1_new.root" && true) = false ∧
    (buildTree (mockCollaborators true) "PEDESTALS_TIB_1_new.root" "PEDESTALS" "7" ("TIB", "1")
        true emptyWorld).1 = true ∧
    (buildTree (mockCollaborators true) "PEDESTALS_TIB_1_new.root" "PEDESTALS" "7" ("TIB", "1")
        true emptyWorld).2.files "PEDESTALS_TIB_1_new.root"
      = some ⟨[⟨"DBTree", sampleColumns, [samplePedestalsRow]⟩]⟩ := by
  have hid : ("7" : String) ≠ QString.number ((mockCollaborators true).code RunType.CURRENTSTATE) ∧
      ("7" : String) ≠ QString.fromQChar ((mockCollaborators true).code RunType.LASTO2O) :=
    ⟨by decide, by decide⟩
  have hmiss : (treeIsSane emptyWorld "PEDESTALS_TIB_1_new.root" && true) = false := by
    simp [treeIsSane, firstTree, emptyWorld]
  have h := buildTree_rebuild_rows (mockCollaborators true) "PEDESTALS_TIB_1_new.root"
    "PEDESTALS" "7" ("TIB", "1") true emptyWorld hid rfl hmiss
  refine ⟨hid, rfl, hmiss, h.1, ?_⟩
  rw [h.2.1]
  have hq : getQuery "PEDESTALS" = pedestalsQuery := by simp [getQuery]
  have hi : sampleToInt "7" = 7 := by decide
  have hb : bindRow (mockCollaborators true) sampleColumns samplePedestalsRow
      = samplePedestalsRow := by decide
  simp [mockCollaborators, hq, hi] at hb ⊢
  exact hb

/-- C10: for every list of run keys whose length is not 4, buildMultiPartTree
returns false and leaves the state as it was: no query is executed and no
artifact file is created or overwritten. -/
theorem buildMultiPartTree_needs_four_runIds (c : Collaborators) (filename : String)
    (runIds : List QRunId) (w : World) (hlen : runIds.length ≠ 4) :
    buildMultiPartTree c filename runIds w = (false, w) := by
  unfold buildMultiPartTree
  by_cases hconn : c.dbConnected = true
  · simp [hconn, hlen]
  · simp [hconn]

/-- Witness of C10 with three run keys. -/
theorem buildMultiPartTree_needs_four_runIds_witness :
    [("TIB", "1"), ("TOB", "2"), ("TECP", "3")].length ≠ 4 ∧
    buildMultiPartTree (mockCollaborators true) "X_FOURPARTS.root"
      [("TIB", "1"), ("TOB", "2"), ("TECP", "3")] emptyWorld = (false, emptyWorld) :=
  ⟨by decide, buildMultiPartTree_needs_four_runIds (mockCollaborators true) "X_FOURPARTS.root"
    [("TIB", "1"), ("TOB", "2"), ("TECP", "3")] emptyWorld (by decide)⟩

/-! ## Properties of the multi-partition build -/

theorem resolveAnalyses_files (c : Collaborators) (runIds : List QRunId)
    (analysisIds analysisTypes : List String) (w : World) :
    (resolveAnalyses c runIds analysisIds analysisTypes w).2.files = w.files := by
  induction runIds generalizing analysisIds analysisTypes w with
  | nil => rfl
  | cons runId rest ih =>
    simp only [resolveAnalyses]
    split_ifs
    · rw [ih]; rfl
    · rfl

theorem resolveAnalyses_all_one (c : Collaborators) (runIds : List QRunId)
    (analysisIds analysisTypes : List String) (w : World)
    (h : ∀ r ∈ runIds, (lookupRows c r).length = 1) :
    resolveAnalyses c runIds analysisIds analysisTypes w
      = (some (analysisIds ++ runIds.map (resolvedId c), analysisTypes ++ runIds.map (resolvedType c)),
         ⟨w.files, w.executed ++ runIds.map lookupRecord⟩) := by
  induction runIds generalizing analysisIds analysisTypes w with
  | nil => simp [resolveAnalyses]
  | cons runId rest ih =>
    have h1 : (c.exec analysisLookupQuery [BindValue.text runId.1, BindValue.text runId.2]).length
        = 1 := h runId (List.mem_cons_self _ _)
    have hrest : ∀ r ∈ rest, (lookupRows c r).length = 1 :=
      fun r hr => h r (List.mem_cons_of_mem _ hr)
    simp only [resolveAnalyses, h1, if_true]
    rw [ih _ _ _ hrest]
    simp [resolvedId, resolvedType, lookupRows, lookupRecord, World.execute]

theorem resolveAnalyses_first_bad (c : Collaborators) (pre post : List QRunId) (bad : QRunId)
    (analysisIds analysisTypes : List String) (w : World)
    (hpre : ∀ r ∈ pre, (lookupRows c r).length = 1) (hbad : (lookupRows c bad).length ≠ 1) :
    resolveAnalyses c (pre ++ bad :: post) analysisIds analysisTypes w
      = (none, ⟨w.files, w.executed ++ (pre ++ [bad]).map lookupRecord⟩) := by
  induction pre generalizing analysisIds analysisTypes w with
  | nil =>
    have hb : ¬ (c.exec analysisLookupQuery [BindValue.text bad.1, BindValue.text bad.2]).length
        = 1 := hbad
    simp [resolveAnalyses, hb, World.execute, lookupRecord]
  | cons runId rest ih =>
    have h1 : (c.exec analysisLookupQuery [BindValue.text runId.1, BindValue.text runId.2]).length
        = 1 := hpre runId (List.mem_cons_self _ _)
    have hrest : ∀ r ∈ rest, (lookupRows c r).length = 1 :=
      fun r hr => hpre r (List.mem_cons_of_mem _ hr)
    show resolveAnalyses c (runId :: (rest ++ bad :: post)) analysisIds analysisTypes w = _
    simp only [resolveAnalyses, h1, if_true]
    rw [ih _ _ _ hrest]
    simp [lookupRecord, World.execute]

theorem resolveAnalyses_some (c : Collaborators) (runIds : List QRunId)
    (analysisIds analysisTypes : List String) (w : World)
    (h : (resolveAnalyses c runIds analysisIds analysisTypes w).1 ≠ none) :
    ∀ r ∈ runIds, (lookupRows c r).length = 1 := by
  induction runIds generalizing analysisIds analysisTypes w with
  | nil => simp
  | cons runId rest ih =>
    simp only [resolveAnalyses] at h
    split_ifs at h with h1
    · intro r hr
      rcases List.mem_cons.1 hr with rfl | hr
      · exact h1
      · exact ih _ _ _ h r hr
    · exact absurd rfl h

theorem fillLoop_eq (c : Collaborators) (columns : List Column) (theQuery : String)
    (analysisIds : List String) (tree : TTree) (w : World) :
    fillLoop c columns theQuery analysisIds tree w
      = ({ tree with entries := tree.entries
            ++ (analysisIds.map (filledRows c columns theQuery)).flatten },
         ⟨w.files, w.executed
            ++ analysisIds.map (fun id => (theQuery, [BindValue.integer (c.toInt id)]))⟩) := by
  induction analysisIds generalizing tree w with
  | nil => simp [fillLoop]
  | cons analysisId rest ih =>
    simp only [fillLoop]
    rw [ih]
    simp [filledRows, World.execute]

/-- The outcome of buildMultiPartTree when every lookup returns exactly one row. -/
theorem buildMultiPartTree_all_one (c : Collaborators) (filename : String)
    (runIds : List QRunId) (w : World) (hconn : c.dbConnected = true) (hlen : runIds.length = 4)
    (h : ∀ r ∈ runIds, (lookupRows c r).length = 1) :
    buildMultiPartTree c filename runIds w
      = (true,
         (⟨(w.recreate filename).files,
            w.executed ++ runIds.map lookupRecord
              ++ (runIds.map (resolvedId c)).map (fun id =>
                (getQuery ((runIds.map (resolvedType c)).getD 0 ""),
                 [BindValue.integer (c.toInt id)]))⟩ : World).writeTree filename
           ⟨"DBTree", c.setExtendedQuery ((runIds.map (resolvedType c)).getD 0 ""),
            ((runIds.map (resolvedId c)).map
              (filledRows c (c.setExtendedQuery ((runIds.map (resolvedType c)).getD 0 ""))
                (getQuery ((runIds.map (resolvedType c)).getD 0 "")))).flatten⟩) := by
  have hne : (runIds.map (resolvedId c)).length ≠ 0 := by simp [hlen]
  simp only [buildMultiPartTree, hconn, hlen, resolveAnalyses_all_one c runIds [] [] w h]
  simp [hlen, fillTree, hconn, fillLoop_eq, World.recreate]

theorem buildMultiPartTree_of_none (c : Collaborators) (filename : String)
    (runIds : List QRunId) (w : World) (hconn : c.dbConnected = true) (hlen : runIds.length = 4)
    (h : (resolveAnalyses c runIds [] [] w).1 = none) :
    buildMultiPartTree c filename runIds w = (false, (resolveAnalyses c runIds [] [] w).2) := by
  simp only [buildMultiPartTree, hconn, hlen]
  rcases hr : resolveAnalyses c runIds [] [] w with ⟨o, w1⟩
  rw [hr] at h
  simp only at h
  subst h
  simp

theorem buildMultiPartTree_true_imp (c : Collaborators) (filename : String)
    (runIds : List QRunId) (w : World) (h : (buildMultiPartTree c filename runIds w).1 = true) :
    c.dbConnected = true ∧ runIds.length = 4 ∧ ∀ r ∈ runIds, (lookupRows c r).length = 1 := by
  by_cases hconn : c.dbConnected = true
  · by_cases hlen : runIds.length = 4
    · refine ⟨hconn, hlen, ?_⟩
      by_cases hnone : (resolveAnalyses c runIds [] [] w).1 = none
      · rw [buildMultiPartTree_of_none c filename runIds w hconn hlen hnone] at h
        simp at h
      · exact resolveAnalyses_some c runIds [] [] w hnone
    · simp [buildMultiPartTree, hconn, hlen] at h
  · simp [buildMultiPartTree, hconn] at h

/-- C11: with a connected database and four run keys, if the lookup of some run
key does not return exactly one row (zero rows or more than one), then
buildMultiPartTree returns false without creating or overwriting any file, and
the lookups executed are those of the run keys up to and including the first
such key, none of the remaining ones; it returns true only if every one of the
four lookups returned exactly one row. -/
theorem buildMultiPartTree_lookup_must_be_unique (c : Collaborators) (filename : String)
    (runIds : List QRunId) (w : World) (hconn : c.dbConnected = true) (hlen : runIds.length = 4) :
    (∀ (pre post : List QRunId) (bad : QRunId), runIds = pre ++ bad :: post →
      (∀ r ∈ pre, (lookupRows c r).length = 1) → (lookupRows c bad).length ≠ 1 →
      buildMultiPartTree c filename runIds w
        = (false, ⟨w.files, w.executed ++ (pre ++ [bad]).map lookupRecord⟩)) ∧
    ((∃ r ∈ runIds, (lookupRows c r).length ≠ 1) →
      (buildMultiPartTree c filename runIds w).1 = false ∧
      (buildMultiPartTree c filename runIds w).2.files = w.files) ∧
    ((buildMultiPartTree c filename runIds w).1 = true →
      ∀ r ∈ runIds, (lookupRows c r).length = 1) := by
  refine ⟨?_, ?_, fun h => (buildMultiPartTree_true_imp c filename runIds w h).2.2⟩
  · intro pre post bad hsplit hpre hbad
    have hres := resolveAnalyses_first_bad c pre post bad [] [] w hpre hbad
    rw [← hsplit] at hres
    rw [buildMultiPartTree_of_none c filename runIds w hconn hlen (by rw [hres]), hres]
  · rintro ⟨r, hr, hbad⟩
    have hnone : (resolveAnalyses c runIds [] [] w).1 = none := by
      by_contra hne
      exact hbad (resolveAnalyses_some c runIds [] [] w hne r hr)
    rw [buildMultiPartTree_of_none c filename runIds w hconn hlen hnone]
    exact ⟨rfl, resolveAnalyses_files c runIds [] [] w⟩

/-- Witness of C11: the second of four run keys has no analysis; the build stops
after two lookups and touches no file. -/
theorem buildMultiPartTree_lookup_must_be_unique_witness :
    multiPartMock.dbConnected = true ∧
    [("TIB", "1"), ("TOB", "9"), ("TECP", "3"), ("TECM", "4")].length = 4 ∧
    buildMultiPartTree multiPartMock "X_FOURPARTS.root"
        [("TIB", "1"), ("TOB", "9"), ("TECP", "3"), ("TECM", "4")] emptyWorld
      = (false, ⟨emptyWorld.files,
          emptyWorld.executed ++ ([("TIB", "1")] ++ [("TOB", "9")]).map lookupRecord⟩) :=
  ⟨rfl, rfl,
    (buildMultiPartTree_lookup_must_be_unique multiPartMock "X_FOURPARTS.root"
      [("TIB", "1"), ("TOB", "9"), ("TECP", "3"), ("TECM", "4")] emptyWorld rfl rfl).1
      [("TIB", "1")] [("TECP", "3"), ("TECM", "4")] ("TOB", "9") rfl
      (by decide!) (by decide!)⟩

/-- C12, counterexample: the four lookups resolve to the analysis types TIMING,
PEDESTALS, TIMING and TIMING, which are not of one kind, and buildMultiPartTree
still returns true. -/
theorem buildMultiPartTree_mixed_kinds_succeed :
    fourRunIds.map (resolvedType multiPartMock) = ["TIMING", "PEDESTALS", "TIMING", "TIMING"] ∧
    iRunType "TIMING" ≠ iRunType "PEDESTALS" ∧
    (buildMultiPartTree multiPartMock "X_FOURPARTS.root" fourRunIds emptyWorld).1 = true := by
  refine ⟨by decide!, by decide, ?_⟩
  rw [buildMultiPartTree_all_one multiPartMock "X_FOURPARTS.root" fourRunIds emptyWorld rfl rfl
    (by decide!)]

/-- C12, amended: buildMultiPartTree returns success exactly when the database
is connected, four run keys are supplied and each of the four lookups returns
exactly one row; the resolved analysis types are not compared with one another
and need not be data-bearing. -/
theorem buildMultiPartTree_success_iff (c : Collaborators) (filename : String)
    (runIds : List QRunId) (w : World) :
    (buildMultiPartTree c filename runIds w).1 = true ↔
      (c.dbConnected = true ∧ runIds.length = 4 ∧ ∀ r ∈ runIds, (lookupRows c r).length = 1) := by
  constructor
  · exact buildMultiPartTree_true_imp c filename runIds w
  · rintro ⟨hconn, hlen, h⟩
    rw [buildMultiPartTree_all_one c filename runIds w hconn hlen h]

/-- C13: when buildMultiPartTree succeeds, the combined artifact is one DBTree
whose entries are the concatenation, in the order of the supplied run keys, of
the rows filled by executing the query of the first partition's analysis type
once for each resolved analysis id, each result list in its own order. -/
theorem buildMultiPartTree_rows_concatenated (c : Collaborators) (filename : String)
    (runIds : List QRunId) (w : World)
    (hok : (buildMultiPartTree c filename runIds w).1 = true) :
    (buildMultiPartTree c filename runIds w).2.files filename
      = some ⟨[⟨"DBTree", c.setExtendedQuery (resolvedType c (runIds.headD ("", ""))),
          (runIds.map (fun runId =>
            (c.exec (getQuery (resolvedType c (runIds.headD ("", ""))))
                [BindValue.integer (c.toInt (resolvedId c runId))]).map
              (bindRow c (c.setExtendedQuery (resolvedType c (runIds.headD ("", ""))))))).flatten⟩]⟩ := by
  obtain ⟨hconn, hlen, h⟩ := buildMultiPartTree_true_imp c filename runIds w hok
  rw [buildMultiPartTree_all_one c filename runIds w hconn hlen h]
  have hhead : (runIds.map (resolvedType c)).getD 0 "" = resolvedType c (runIds.headD ("", "")) := by
    cases runIds with
    | nil => simp at hlen
    | cons r rest => simp
  rw [hhead]
  simp [World.writeTree, World.recreate, filledRows, List.map_map, Function.comp_def]

/-- Witness of C13: the four mock partitions give two, no, one and one Timing
rows, which appear in that order in the combined tree. -/
theorem buildMultiPartTree_rows_concatenated_witness :
    (buildMultiPartTree multiPartMock "X_FOURPARTS.root" fourRunIds emptyWorld).1 = true ∧
    (buildMultiPartTree multiPartMock "X_FOURPARTS.root" fourRunIds emptyWorld).2.files
        "X_FOURPARTS.root"
      = some ⟨[⟨"DBTree", sampleColumns,
          [[Cell.integer 1, Cell.integer 101, Cell.real 1, Cell.real 2, Cell.text "TIB"],
           [Cell.integer 2, Cell.integer 102, Cell.real 3, Cell.real 4, Cell.text "TIB"],
           [Cell.integer 3, Cell.integer 103, Cell.real 5, Cell.real 6, Cell.text "TECP"],
           [Cell.integer 4, Cell.integer 104, Cell.real 7, Cell.real 8, Cell.text "TECM"]]⟩]⟩ := by
  have hok : (buildMultiPartTree multiPartMock "X_FOURPARTS.root" fourRunIds emptyWorld).1
      = true := by
    rw [buildMultiPartTree_all_one multiPartMock "X_FOURPARTS.root" fourRunIds emptyWorld rfl rfl
      (by decide!)]
  refine ⟨hok, ?_⟩
  rw [buildMultiPartTree_rows_concatenated multiPartMock "X_FOURPARTS.root" fourRunIds emptyWorld
    hok]
  decide!

/-! ## Properties of the strip decoder and of the state snapshot -/

theorem hexValue_hexDigit (b : Nat) : hexValue (hexDigit (b % 16)) = some (b % 16) := by
  have h : b % 16 < 16 := Nat.mod_lt _ (by norm_num)
  generalize b % 16 = n at h
  interval_cases n <;> rfl

theorem reversePairs_window (a b c d e f g h : Char) :
    reversePairs [a, b, c, d, e, f, g, h] = [g, h, e, f, c, d, a, b] := by
  simp [reversePairs, QByteArray.mid, List.range_succ]

theorem stripAt_of_window (array : List Char) (index v : Nat) (hv : v < 2 ^ 32)
    (hwin : QByteArray.mid array (8 * index) 8
      = QByteArray.toHex [v % 256, v / 256 % 256, v / 65536 % 256, v / 16777216 % 256]) :
    stripAt array index = v := by
  unfold stripAt
  rw [hwin]
  simp only [QByteArray.toHex, reversePairs_window, QByteArray.toLong, hexDigitsValue,
    hexValue_hexDigit]
  simp only [List.cons_ne_nil, if_false]
  have hval : 16 * (16 * (16 * (16 * (16 * (16 * (16 * (16 * 0 + v / 16777216 % 256 / 16 % 16)
      + v / 16777216 % 256 % 16) + v / 65536 % 256 / 16 % 16) + v / 65536 % 256 % 16)
      + v / 256 % 256 / 16 % 16) + v / 256 % 256 % 16) + v % 256 / 16 % 16) + v % 256 % 16 = v := by
    omega
  rw [hval]
  have h63 : v < 2 ^ 63 := by
    have : (2 : Nat) ^ 32 < 2 ^ 63 := by norm_num
    omega
  exact if_pos h63

theorem decodeWindow_Pedestal (c : StateCollaborators) (array : List Char) (st : StripState)
    (index i : Nat) :
    (decodeWindow c array st index).Pedestal i
      = if i = index ∧ index < 128 then (pedOf (stripAt array index) : ℚ) else st.Pedestal i := by
  unfold decodeWindow
  by_cases hn : index < 128
  · by_cases hi : i = index <;> simp [hn, hi, setSlot]
  · by_cases hd : c.debugEnabled = true <;> simp [hn, hd]

theorem decodeWindow_Noise (c : StateCollaborators) (array : List Char) (st : StripState)
    (index i : Nat) :
    (decodeWindow c array st index).Noise i
      = if i = index ∧ index < 128 then c.toFloat ((noiseFieldOf (stripAt array index) : ℚ) / 10)
        else st.Noise i := by
  unfold decodeWindow
  by_cases hn : index < 128
  · by_cases hi : i = index <;> simp [hn, hi, setSlot]
  · by_cases hd : c.debugEnabled = true <;> simp [hn, hd]

theorem decodeWindow_refused (c : StateCollaborators) (array : List Char) (st : StripState)
    (index : Nat) :
    (decodeWindow c array st index).refused.length
      = st.refused.length + (if c.debugEnabled = true ∧ 128 ≤ index then 1 else 0) := by
  unfold decodeWindow
  by_cases hn : index < 128
  · have : ¬ 128 ≤ index := by omega
    simp [hn, this]
  · have : 128 ≤ index := by omega
    by_cases hd : c.debugEnabled = true <;> simp [hn, hd, this]

theorem decodeRange_Pedestal (c : StateCollaborators) (array : List Char) (st : StripState)
    (n i : Nat) :
    ((List.range n).foldl (decodeWindow c array) st).Pedestal i
      = if i < n ∧ i < 128 then (pedOf (stripAt array i) : ℚ) else st.Pedestal i := by
  induction n with
  | zero => simp
  | succ n ih =>
    rw [List.range_succ, List.foldl_append, List.foldl_cons, List.foldl_nil,
      decodeWindow_Pedestal, ih]
    by_cases hi : i = n
    · subst hi
      by_cases hn : i < 128 <;> simp [hn]
    · have h1 : ¬ (i = n ∧ n < 128) := fun h => hi h.1
      have h2 : (i < n + 1 ∧ i < 128) ↔ (i < n ∧ i < 128) := by omega
      simp only [h1, if_false, h2]

theorem decodeRange_Noise (c : StateCollaborators) (array : List Char) (st : StripState)
    (n i : Nat) :
    ((List.range n).foldl (decodeWindow c array) st).Noise i
      = if i < n ∧ i < 128 then c.toFloat ((noiseFieldOf (stripAt array i) : ℚ) / 10)
        else st.Noise i := by
  induction n with
  | zero => simp
  | succ n ih =>
    rw [List.range_succ, List.foldl_append, List.foldl_cons, List.foldl_nil,
      decodeWindow_Noise, ih]
    by_cases hi : i = n
    · subst hi
      by_cases hn : i < 128 <;> simp [hn]
    · have h1 : ¬ (i = n ∧ n < 128) := fun h => hi h.1
      have h2 : (i < n + 1 ∧ i < 128) ↔ (i < n ∧ i < 128) := by omega
      simp only [h1, if_false, h2]

theorem decodeRange_refused (c : StateCollaborators) (array : List Char) (st : StripState)
    (n : Nat) :
    ((List.range n).foldl (decodeWindow c array) st).refused.length
      = st.refused.length + (if c.debugEnabled = true then n - 128 else 0) := by
  induction n with
  | zero => simp
  | succ n ih =>
    rw [List.range_succ, List.foldl_append, List.foldl_cons, List.foldl_nil,
      decodeWindow_refused, ih]
    by_cases hd : c.debugEnabled = true
    · simp only [hd, true_and, if_true]
      split_ifs <;> omega
    · simp [hd]

theorem mid_take_window (array : List Char) (i : Nat) (hi : i < 128) :
    QByteArray.mid (array.take 1024) (8 * i) 8 = QByteArray.mid array (8 * i) 8 := by
  unfold QByteArray.mid
  rw [List.drop_take, List.take_take]
  have : min 8 (1024 - 8 * i) = 8 := by omega
  rw [this]

theorem foldl_add_eq_sum (f : Nat → ℚ) (l : List Nat) (a : ℚ) :
    l.foldl (fun acc i => acc + f i) a = a + (l.map f).sum := by
  induction l generalizing a with
  | nil => simp
  | cons x rest ih => simp [ih, add_assoc]

theorem mean128_eq_sum (slots : Nat → ℚ) :
    mean128 slots = ((List.range 128).map slots).sum / 128 := by
  unfold mean128
  rw [foldl_add_eq_sum, zero_add]

theorem mean128_const (slots : Nat → ℚ) (k : ℚ) (h : ∀ i, i < 128 → slots i = k) :
    mean128 slots = k := by
  rw [mean128_eq_sum]
  have hmap : (List.range 128).map slots = (List.range 128).map (fun _ => k) :=
    List.map_congr_left (fun i hi => h i (List.mem_range.1 hi))
  rw [hmap, List.map_const', List.length_range, List.sum_replicate, nsmul_eq_mul]
  norm_num

theorem fillStateRows_length (c : StateCollaborators) (devmap : Nat → Nat × Int)
    (rows : List (List Cell)) (st : StripState) :
    (fillStateRows c devmap rows st).1.length = rows.length := by
  induction rows generalizing st with
  | nil => rfl
  | cons row rest ih => simp [fillStateRows, ih]

theorem floatOfQuotient_exact_iff :
    ∀ field : Nat, field < 512 →
      (floatOfQuotient ((field : ℚ) / 10) = (field : ℚ) / 10 ↔ field % 5 = 0) := by
  decide!

theorem noiseField_lt (v : Nat) : (v >>> 13) &&& 0x1FF < 512 := by
  have h : (v >>> 13) &&& 0x1FF ≤ 0x1FF := Nat.and_le_right
  omega

/-- The slot values of window idx for any float storage: the strip read back is
v, the pedestal slot holds the pedestal field, and the noise slot holds the
stored quotient of the noise field by 10. -/
theorem fillStateRow_slots_of_window (c : StateCollaborators) (devmap : Nat → Nat × Int)
    (row : List Cell) (st : StripState) (v idx : Nat) (hv : v < 2 ^ 32) (hidx : idx < 128)
    (hwin : QByteArray.mid
        (QByteArray.toHex (QByteArray.fromBase64 (c.cellToByteArray (value row 11)))) (8 * idx) 8
      = QByteArray.toHex [v % 256, v / 256 % 256, v / 65536 % 256, v / 16777216 % 256]) :
    stripAt (QByteArray.toHex (QByteArray.fromBase64 (c.cellToByteArray (value row 11)))) idx = v ∧
    (fillStateRow c devmap row st).1.Pedestal idx = (((v >>> 22) &&& 0x3FF : Nat) : ℚ) ∧
    (fillStateRow c devmap row st).1.Noise idx
      = c.toFloat ((((v >>> 13) &&& 0x1FF : Nat) : ℚ) / 10) := by
  have hstrip := stripAt_of_window _ idx v hv hwin
  have hlen := congrArg List.length hwin
  simp only [QByteArray.mid, QByteArray.toHex, List.length_take, List.length_drop,
    List.length_cons, List.length_nil] at hlen
  have hrange : idx < ((QByteArray.toHex (QByteArray.fromBase64
      (c.cellToByteArray (value row 11)))).length + 7) / 8 ∧ idx < 128 := by
    constructor <;> omega
  refine ⟨hstrip, ?_, ?_⟩
  · show (decodeStrips c _ st).Pedestal idx = _
    unfold decodeStrips
    rw [decodeRange_Pedestal, if_pos hrange, hstrip]
    rfl
  · show (decodeStrips c _ st).Noise idx = _
    unfold decodeStrips
    rw [decodeRange_Noise, if_pos hrange, hstrip]
    rfl

/-- C14, counterexample: window 0 of the blob ACAAGQ== holds the four bytes of
v = 0x19002000 (pedestal field 100, noise field 1) in little-endian order; with
the float storage of the source the decoder stores Noise[0] = 13421773/134217728,
the single-precision neighbour of 0.1, which is not ((v >> 13) & 0x1FF) / 10. -/
theorem fillStateRow_noise_not_exact :
    (419438592 < 2 ^ 32 ∧ 0 < 128) ∧
    QByteArray.mid (QByteArray.toHex (QByteArray.fromBase64
        (floatStateMock.cellToByteArray (value (stateRow "ACAAGQ==") 11)))) (8 * 0) 8
      = QByteArray.toHex [419438592 % 256, 419438592 / 256 % 256, 419438592 / 65536 % 256,
          419438592 / 16777216 % 256] ∧
    ((419438592 >>> 13) &&& 0x1FF : Nat) = 1 ∧
    (fillStateRow floatStateMock (fun _ => (0, 0)) (stateRow "ACAAGQ==")
      zeroStripState).1.Noise 0 = 13421773 / 134217728 ∧
    (fillStateRow floatStateMock (fun _ => (0, 0)) (stateRow "ACAAGQ==")
      zeroStripState).1.Noise 0 ≠ (((419438592 >>> 13) &&& 0x1FF : Nat) : ℚ) / 10 := by
  decide!

/-- C14, amended: for every 32-bit value v and window number idx < 128, if
window idx of the hex text of a row's blob is the hex text of the four bytes of
v in little-endian order, then the byte-pair reversal reads back exactly v, the
entry filled by getState for the row holds Pedestal[idx] = (v >> 22) & 0x3FF
exactly, and Noise[idx] is the quotient ((v >> 13) & 0x1FF) / 10 as the source
stores it, computed in double precision and narrowed to a float; the stored
noise equals the exact quotient precisely when the 9-bit noise field is a
multiple of 5. -/
theorem fillStateRow_fields_float_noise (c : StateCollaborators) (devmap : Nat → Nat × Int)
    (row : List Cell) (st : StripState) (v idx : Nat) (hv : v < 2 ^ 32) (hidx : idx < 128)
    (hfloat : ∀ q : ℚ, c.toFloat q = floatOfQuotient q)
    (hwin : QByteArray.mid
        (QByteArray.toHex (QByteArray.fromBase64 (c.cellToByteArray (value row 11)))) (8 * idx) 8
      = QByteArray.toHex [v % 256, v / 256 % 256, v / 65536 % 256, v / 16777216 % 256]) :
    stripAt (QByteArray.toHex (QByteArray.fromBase64 (c.cellToByteArray (value row 11)))) idx = v ∧
    (fillStateRow c devmap row st).1.Pedestal idx = (((v >>> 22) &&& 0x3FF : Nat) : ℚ) ∧
    (fillStateRow c devmap row st).1.Noise idx
      = floatOfQuotient ((((v >>> 13) &&& 0x1FF : Nat) : ℚ) / 10) ∧
    ((fillStateRow c devmap row st).1.Noise idx = (((v >>> 13) &&& 0x1FF : Nat) : ℚ) / 10 ↔
      ((v >>> 13) &&& 0x1FF) % 5 = 0) := by
  obtain ⟨hstrip, hped, hnoise⟩ := fillStateRow_slots_of_window c devmap row st v idx hv hidx hwin
  rw [hfloat] at hnoise
  refine ⟨hstrip, hped, hnoise, ?_⟩
  rw [hnoise]
  exact floatOfQuotient_exact_iff _ (noiseField_lt v)

/-- Witness of C14 as amended: the strip 0x19002000 (pedestal 100, noise field
1) in window 0. -/
theorem fillStateRow_fields_float_noise_witness :
    (419438592 < 2 ^ 32 ∧ 0 < 128) ∧
    (∀ q : ℚ, floatStateMock.toFloat q = floatOfQuotient q) ∧
    stripAt (QByteArray.toHex (QByteArray.fromBase64
      (floatStateMock.cellToByteArray (value (stateRow "ACAAGQ==") 11)))) 0 = 419438592 ∧
    (fillStateRow floatStateMock (fun _ => (0, 0)) (stateRow "ACAAGQ==")
      zeroStripState).1.Pedestal 0 = (((419438592 >>> 22) &&& 0x3FF : Nat) : ℚ) ∧
    (fillStateRow floatStateMock (fun _ => (0, 0)) (stateRow "ACAAGQ==")
      zeroStripState).1.Noise 0
      = floatOfQuotient ((((419438592 >>> 13) &&& 0x1FF : Nat) : ℚ) / 10) ∧
    ((fillStateRow floatStateMock (fun _ => (0, 0)) (stateRow "ACAAGQ==")
        zeroStripState).1.Noise 0 = (((419438592 >>> 13) &&& 0x1FF : Nat) : ℚ) / 10 ↔
      ((419438592 >>> 13) &&& 0x1FF) % 5 = 0) :=
  ⟨by decide, fun _ => rfl,
    fillStateRow_fields_float_noise floatStateMock (fun _ => (0, 0)) (stateRow "ACAAGQ==")
      zeroStripState 419438592 0 (by decide) (by decide) (fun _ => rfl) (by decide)⟩

/-- C15: evaluated on two result rows, the first with a blob of two strips
(pedestal 100, noise 2.0 each) and the second with a blob of one strip
(pedestal 7, noise 0.5), and even with buffers that start at zero, the entry of
the second row holds in slot 1, which its blob does not write, the values of the
first row (pedestal 100, noise 2.0) instead of zero, and its means are 107/128
and 2.5/128 instead of 7/128 and 0.5/128. -/
theorem fillStateRows_keeps_previous_row_slots :
    ((fillStateRows (stateMock []) (fun _ => (0, 0))
        [stateRow "AIACGQCAAhk=", stateRow "AKDAAQ=="] zeroStripState).1.map
      (fun entry => (entry.Pedestal 0, entry.Pedestal 1, entry.Noise 0, entry.Noise 1,
        entry.PedsMean, entry.NoiseMean)))
      = [(100, 100, 2, 2, 200 / 128, 4 / 128),
         (7, 100, 1 / 2, 2, 107 / 128, (5 / 2) / 128)] := by
  decide!

theorem decodeStrips_Pedestal (c : StateCollaborators) (array : List Char) (st : StripState)
    (i : Nat) :
    (decodeStrips c array st).Pedestal i
      = if i < (array.length + 7) / 8 ∧ i < 128 then (pedOf (stripAt array i) : ℚ)
        else st.Pedestal i :=
  decodeRange_Pedestal c array st _ i

theorem decodeStrips_Noise (c : StateCollaborators) (array : List Char) (st : StripState)
    (i : Nat) :
    (decodeStrips c array st).Noise i
      = if i < (array.length + 7) / 8 ∧ i < 128 then
          c.toFloat ((noiseFieldOf (stripAt array i) : ℚ) / 10)
        else st.Noise i :=
  decodeRange_Noise c array st _ i

theorem decodeStrips_take (c : StateCollaborators) (array : List Char) (st : StripState)
    (hn : 128 < (array.length + 7) / 8) :
    (decodeStrips c array st).Noise = (decodeStrips c (array.take 1024) st).Noise ∧
    (decodeStrips c array st).Pedestal = (decodeStrips c (array.take 1024) st).Pedestal := by
  have hlen : (array.take 1024).length = 1024 := by
    rw [List.length_take]; omega
  constructor
  · funext i
    rw [decodeStrips_Noise, decodeStrips_Noise, hlen]
    by_cases hi : i < 128
    · have h1 : i < (array.length + 7) / 8 ∧ i < 128 := ⟨by omega, hi⟩
      have h2 : i < (1024 + 7) / 8 ∧ i < 128 := ⟨by omega, hi⟩
      rw [if_pos h1, if_pos h2]
      unfold stripAt
      rw [mid_take_window array i hi]
    · have h1 : ¬ (i < (array.length + 7) / 8 ∧ i < 128) := fun h => hi h.2
      have h2 : ¬ (i < (1024 + 7) / 8 ∧ i < 128) := fun h => hi h.2
      rw [if_neg h1, if_neg h2]
  · funext i
    rw [decodeStrips_Pedestal, decodeStrips_Pedestal, hlen]
    by_cases hi : i < 128
    · have h1 : i < (array.length + 7) / 8 ∧ i < 128 := ⟨by omega, hi⟩
      have h2 : i < (1024 + 7) / 8 ∧ i < 128 := ⟨by omega, hi⟩
      rw [if_pos h1, if_pos h2]
      unfold stripAt
      rw [mid_take_window array i hi]
    · have h1 : ¬ (i < (array.length + 7) / 8 ∧ i < 128) := fun h => hi h.2
      have h2 : ¬ (i < (1024 + 7) / 8 ∧ i < 128) := fun h => hi h.2
      rw [if_neg h1, if_neg h2]

/-- C16: for every hex text with n > 128 windows, the strip decoder leaves the
128 noise and pedestal slots, and so both means, as it would from the first 128
windows alone (the first 1024 characters); no slot of index 128 or above is
written; with debugging enabled exactly n - 128 diagnostics are written, one
per excess window, and none otherwise; and the row loop fills one entry per
result row whatever the blobs are. -/
theorem decodeStrips_truncates_at_128 (c : StateCollaborators) (array : List Char)
    (st : StripState) (hn : 128 < (array.length + 7) / 8) :
    (decodeStrips c array st).Noise = (decodeStrips c (array.take 1024) st).Noise ∧
    (decodeStrips c array st).Pedestal = (decodeStrips c (array.take 1024) st).Pedestal ∧
    mean128 (decodeStrips c array st).Noise = mean128 (decodeStrips c (array.take 1024) st).Noise ∧
    mean128 (decodeStrips c array st).Pedestal
      = mean128 (decodeStrips c (array.take 1024) st).Pedestal ∧
    (∀ i, 128 ≤ i → (decodeStrips c array st).Noise i = st.Noise i ∧
      (decodeStrips c array st).Pedestal i = st.Pedestal i) ∧
    (c.debugEnabled = true →
      (decodeStrips c array st).refused.length
        = st.refused.length + ((array.length + 7) / 8 - 128)) ∧
    (c.debugEnabled = false → (decodeStrips c array st).refused.length = st.refused.length) ∧
    (∀ (devmap : Nat → Nat × Int) (rows : List (List Cell)) (st1 : StripState),
      (fillStateRows c devmap rows st1).1.length = rows.length) := by
  obtain ⟨hN, hP⟩ := decodeStrips_take c array st hn
  refine ⟨hN, hP, by rw [hN], by rw [hP], ?_, ?_, ?_, fillStateRows_length c⟩
  · intro i hi
    have h1 : ¬ (i < (array.length + 7) / 8 ∧ i < 128) := fun h => by omega
    rw [decodeStrips_Noise, decodeStrips_Pedestal, if_neg h1, if_neg h1]
    exact ⟨rfl, rfl⟩
  · intro hd
    unfold decodeStrips
    rw [decodeRange_refused, if_pos hd]
  · intro hd
    unfold decodeStrips
    rw [decodeRange_refused]
    simp [hd]

/-- Witness of C16: a blob of 129 strips. -/
theorem decodeStrips_truncates_at_128_witness :
    128 < ((QByteArray.toHex (QByteArray.fromBase64 overlongBlob.data)).length + 7) / 8 ∧
    (decodeStrips (stateMock []) (QByteArray.toHex (QByteArray.fromBase64 overlongBlob.data))
        zeroStripState).Pedestal
      = (decodeStrips (stateMock [])
          ((QByteArray.toHex (QByteArray.fromBase64 overlongBlob.data)).take 1024)
          zeroStripState).Pedestal ∧
    (decodeStrips (stateMock []) (QByteArray.toHex (QByteArray.fromBase64 overlongBlob.data))
        zeroStripState).refused.length
      = zeroStripState.refused.length
        + (((QByteArray.toHex (QByteArray.fromBase64 overlongBlob.data)).length + 7) / 8 - 128) :=
  ⟨by decide!,
   (decodeStrips_truncates_at_128 (stateMock [])
      (QByteArray.toHex (QByteArray.fromBase64 overlongBlob.data)) zeroStripState
      (by decide!)).2.1,
   (decodeStrips_truncates_at_128 (stateMock [])
      (QByteArray.toHex (QByteArray.fromBase64 overlongBlob.data)) zeroStripState
      (by decide!)).2.2.2.2.2.1 rfl⟩

/-- C17: in every entry that getState fills, PedsMean is the sum of the 128
pedestal slots divided by 128 and NoiseMean is the sum of the 128 noise slots
divided by 128; when all 128 pedestals are 100 and all 128 noises are 2.0,
PedsMean is 100 and NoiseMean is 2.0. -/
theorem fillStateRow_means (c : StateCollaborators) (devmap : Nat → Nat × Int)
    (row : List Cell) (st : StripState) :
    (fillStateRow c devmap row st).1.PedsMean
      = ((List.range 128).map (fillStateRow c devmap row st).1.Pedestal).sum / 128 ∧
    (fillStateRow c devmap row st).1.NoiseMean
      = ((List.range 128).map (fillStateRow c devmap row st).1.Noise).sum / 128 ∧
    ((∀ i, i < 128 → (fillStateRow c devmap row st).1.Pedestal i = 100) →
      (fillStateRow c devmap row st).1.PedsMean = 100) ∧
    ((∀ i, i < 128 → (fillStateRow c devmap row st).1.Noise i = 2) →
      (fillStateRow c devmap row st).1.NoiseMean = 2) :=
  ⟨mean128_eq_sum _, mean128_eq_sum _, fun h => mean128_const _ 100 h,
    fun h => mean128_const _ 2 h⟩

/-- Witness of C17: the blob of 128 strips with pedestal 100 and noise field 20
gives PedsMean 100 and NoiseMean 2.0. -/
theorem fillStateRow_means_witness :
    (∀ i, i < 128 →
      (fillStateRow (stateMock []) (fun _ => (0, 0)) (stateRow fullBlob)
        zeroStripState).1.Pedestal i = 100) ∧
    (∀ i, i < 128 →
      (fillStateRow (stateMock []) (fun _ => (0, 0)) (stateRow fullBlob)
        zeroStripState).1.Noise i = 2) ∧
    (fillStateRow (stateMock []) (fun _ => (0, 0)) (stateRow fullBlob)
      zeroStripState).1.PedsMean = 100 ∧
    (fillStateRow (stateMock []) (fun _ => (0, 0)) (stateRow fullBlob)
      zeroStripState).1.NoiseMean = 2 := by
  have hP : ∀ i, i < 128 →
      (fillStateRow (stateMock []) (fun _ => (0, 0)) (stateRow fullBlob)
        zeroStripState).1.Pedestal i = 100 := by decide!
  have hN : ∀ i, i < 128 →
      (fillStateRow (stateMock []) (fun _ => (0, 0)) (stateRow fullBlob)
        zeroStripState).1.Noise i = 2 := by decide!
  exact ⟨hP, hN,
    (fillStateRow_means (stateMock []) (fun _ => (0, 0)) (stateRow fullBlob)
      zeroStripState).2.2.1 hP,
    (fillStateRow_means (stateMock []) (fun _ => (0, 0)) (stateRow fullBlob)
      zeroStripState).2.2.2 hN⟩

/-- C18: evaluated with a snapshot query that yields zero rows, getState for the
LastSynchronized state returns true although the tree it persisted has no entry:
the closing buildTree call does not recognise the LastSynchronized code as a
state analysis id, rebuilds the file through the query path and reports success,
leaving a DBTree without entries; for the CurrentState state the same call
returns false. -/
theorem getState_lastO2O_empty_returns_true :
    (getState (stateMock []) "TIB" (sampleCode RunType.LASTO2O) zeroStripState emptyWorld).1
      = true ∧
    (getState (stateMock []) "TIB" (sampleCode RunType.LASTO2O) zeroStripState emptyWorld).2.files
        "/opt/cmssw/shifter/avartak/data/LASTO2O_TIB.root"
      = some ⟨[⟨"DBTree", sampleColumns, []⟩]⟩ ∧
    QString.number (sampleCode RunType.LASTO2O) = "91" ∧
    QString.fromQChar (sampleCode RunType.LASTO2O) = "[" ∧
    (getState (stateMock []) "TIB" (sampleCode RunType.CURRENTSTATE) zeroStripState emptyWorld).1
      = false := by
  decide!

/-- C19: replacing every occurrence of viewcurrentstate in the CurrentState
query by VIEWLASTO2OPARTITIONS gives exactly the LastSynchronized query, the
view does occur in the CurrentState query, and each of the two texts contains
exactly one bind placeholder ?. -/
theorem currentState_lastO2O_differ_in_view :
    replaceAll "viewcurrentstate" "VIEWLASTO2OPARTITIONS" currentState = lastO2O.data ∧
    occursIn "viewcurrentstate".data currentState.data = true ∧
    occursIn "viewcurrentstate".data lastO2O.data = false ∧
    placeholderCount currentState = 1 ∧ placeholderCount lastO2O = 1 := by
  decide!

/-- C20: the FecKey expression is injective on in-range hardware addresses: two
tuples (crateSlot, fecSlot, ringSlot, ccuAddress, i2cChannel, i2cAddress) with
fecSlot < 32, ringSlot < 16, ccuAddress < 256, i2cChannel < 32 and
30 <= i2cAddress <= 45 that have equal FecKey values are equal. -/
theorem fecKeyExpr_injective (c1 f1 r1 u1 ch1 a1 c2 f2 r2 u2 ch2 a2 : Nat)
    (hf1 : f1 < 32) (hr1 : r1 < 16) (hu1 : u1 < 256) (hch1 : ch1 < 32)
    (hlo1 : 30 ≤ a1) (hhi1 : a1 ≤ 45)
    (hf2 : f2 < 32) (hr2 : r2 < 16) (hu2 : u2 < 256) (hch2 : ch2 < 32)
    (hlo2 : 30 ≤ a2) (hhi2 : a2 ≤ 45)
    (hkey : fecKeyExpr c1 f1 r1 u1 ch1 a1 = fecKeyExpr c2 f2 r2 u2 ch2 a2) :
    (c1, f1, r1, u1, ch1, a1) = (c2, f2, r2, u2, ch2, a2) := by
  unfold fecKeyExpr at hkey
  rw [sqlRound_lasChan a1 hlo1 hhi1, sqlRound_lasChan a2 hlo2 hhi2] at hkey
  have h : c1 = c2 ∧ f1 = f2 ∧ r1 = r2 ∧ u1 = u2 ∧ ch1 = ch2 ∧ a1 = a2 := by
    split_ifs at hkey <;> omega
  obtain ⟨rfl, rfl, rfl, rfl, rfl, rfl⟩ := h
  rfl

/-- Witness of C20 at the address of the worked example. -/
theorem fecKeyExpr_injective_witness :
    (2 < 32 ∧ 3 < 16 ∧ 4 < 256 ∧ 5 < 32 ∧ 30 ≤ 33 ∧ 33 ≤ 45) ∧
    fecKeyExpr 1 2 3 4 5 33 = fecKeyExpr 1 2 3 4 5 33 ∧
    ((1, 2, 3, 4, 5, 33) : Nat × Nat × Nat × Nat × Nat × Nat) = (1, 2, 3, 4, 5, 33) :=
  ⟨by decide, rfl, fecKeyExpr_injective 1 2 3 4 5 33 1 2 3 4 5 33 (by decide) (by decide)
    (by decide) (by decide) (by decide) (by decide) (by decide) (by decide) (by decide)
    (by decide) (by decide) (by decide) rfl⟩

/-! ## Properties of loadAnalysis and of the canonical labels -/

theorem multiPartRunIds_eq (parts : List String) (runIds : List QRunId) :
    multiPartRunIds parts runIds
      = if ∀ part ∈ parts, (QString.split '#' part).length = 2 then
          some (runIds ++ parts.map (fun part =>
            ((QString.split '#' part).getD 0 "", (QString.split '#' part).getD 1 "")))
        else none := by
  induction parts generalizing runIds with
  | nil => simp [multiPartRunIds]
  | cons part rest ih =>
    by_cases h : (QString.split '#' part).length = 2
    · simp [multiPartRunIds, h, ih]
    · simp [multiPartRunIds, h]

/-- C21: for a run key whose run field is the MultiPartition code (a code apart
from the CurrentState and LastSynchronized codes), loadAnalysis returns the
empty text and leaves the state as it was, with no query executed and no file
touched, unless the partition field splits at * into exactly five parts and
each of the last four splits at # into exactly two; when it does, the four
(partition, run) pairs are passed in order to buildMultiPartTree together with
the path made of the fixed root, the first part and _FOURPARTS.root, and that
path is returned when the build succeeds, the empty text otherwise. -/
theorem loadAnalysis_multipart (c : Collaborators) (partition : String) (useCache : Bool)
    (w : World)
    (hcur : QString.number (c.code RunType.MULTIPART)
      ≠ QString.number (c.code RunType.CURRENTSTATE))
    (hlast : QString.number (c.code RunType.MULTIPART)
      ≠ QString.number (c.code RunType.LASTO2O)) :
    (¬ multiPartWellFormed partition →
      loadAnalysis c (partition, QString.number (c.code RunType.MULTIPART)) useCache w
        = ("", w)) ∧
    (multiPartWellFormed partition →
      (multiPartPairs partition).length = 4 ∧
      loadAnalysis c (partition, QString.number (c.code RunType.MULTIPART)) useCache w
        = (if (buildMultiPartTree c (multiPartPath partition) (multiPartPairs partition) w).1
            then multiPartPath partition else "",
           (buildMultiPartTree c (multiPartPath partition) (multiPartPairs partition) w).2)) := by
  constructor
  · intro hwf
    unfold multiPartWellFormed at hwf
    simp only [loadAnalysis, hcur, hlast, if_false, if_true]
    by_cases hlen : (QString.split '*' partition).length = 5
    · have hbad : ¬ ∀ part ∈ (QString.split '*' partition).drop 1,
          (QString.split '#' part).length = 2 := fun h => hwf ⟨hlen, h⟩
      simp only [hlen, ne_eq, not_true_eq_false, if_false]
      rw [multiPartRunIds_eq, if_neg hbad]
    · simp [hlen]
  · intro hwf
    obtain ⟨hlen, hparts⟩ := hwf
    refine ⟨by simp [multiPartPairs, hlen], ?_⟩
    simp only [loadAnalysis, hcur, hlast, if_false, if_true, hlen, ne_eq, not_true_eq_false]
    rw [multiPartRunIds_eq, if_pos hparts]
    simp [multiPartPairs, multiPartPath]

/-- Witness of C21: with the sample codes (MultiPartition code 92) a partition
field of three parts gives the empty text and an untouched state, and a well
formed field names the four mock runs and gives the path of MYRUN. -/
theorem loadAnalysis_multipart_witness :
    (QString.number (multiPartMock.code RunType.MULTIPART)
        ≠ QString.number (multiPartMock.code RunType.CURRENTSTATE) ∧
      QString.number (multiPartMock.code RunType.MULTIPART)
        ≠ QString.number (multiPartMock.code RunType.LASTO2O)) ∧
    QString.number (multiPartMock.code RunType.MULTIPART) = "92" ∧
    loadAnalysis multiPartMock
        ("MYRUN*TIB#1*TOB#2", QString.number (multiPartMock.code RunType.MULTIPART)) true
        emptyWorld = ("", emptyWorld) ∧
    multiPartPairs "MYRUN*TIB#1*TOB#2*TECP#3*TECM#4" = fourRunIds ∧
    (loadAnalysis multiPartMock
        ("MYRUN*TIB#1*TOB#2*TECP#3*TECM#4", QString.number (multiPartMock.code RunType.MULTIPART))
        true emptyWorld).1 = "/opt/cmssw/shifter/avartak/data/MYRUN_FOURPARTS.root" := by
  have hcodes : QString.number (multiPartMock.code RunType.MULTIPART)
        ≠ QString.number (multiPartMock.code RunType.CURRENTSTATE) ∧
      QString.number (multiPartMock.code RunType.MULTIPART)
        ≠ QString.number (multiPartMock.code RunType.LASTO2O) := ⟨by decide, by decide⟩
  refine ⟨hcodes, by decide, ?_, by decide, ?_⟩
  · exact (loadAnalysis_multipart multiPartMock "MYRUN*TIB#1*TOB#2" true emptyWorld
      hcodes.1 hcodes.2).1 (by decide)
  · rw [((loadAnalysis_multipart multiPartMock "MYRUN*TIB#1*TOB#2*TECP#3*TECM#4" true emptyWorld
      hcodes.1 hcodes.2).2 (by decide)).2]
    decide!

/-- C22: sRunType is a kind-preserving idempotent normalisation: for every text
s the label sRunType s has the kind of s, relabelling a label changes nothing,
and the label is UNKNOWN exactly when the kind of s is Unknown. -/
theorem sRunType_normalises (s : String) :
    iRunType (sRunType s) = iRunType s ∧
    sRunType (sRunType s) = sRunType s ∧
    (sRunType s = "UNKNOWN" ↔ iRunType s = RunType.UNKNOWN_RUN_TYPE) := by
  by_cases h1 : s = "TIMING"
  · subst h1; simp [iRunType, sRunType]
  by_cases h2 : s = "OPTOSCAN"
  · subst h2; simp [iRunType, sRunType]
  by_cases h3 : s = "GAINSCAN"
  · subst h3; simp [iRunType, sRunType]
  by_cases h4 : s = "VPSPSCAN"
  · subst h4; simp [iRunType, sRunType]
  by_cases h5 : s = "VERY_FAST_CONNECTION"
  · subst h5; simp [iRunType, sRunType]
  by_cases h6 : s = "FASTFEDCABLING"
  · subst h6; simp [iRunType, sRunType]
  by_cases h7 : s = "PEDESTALS"
  · subst h7; simp [iRunType, sRunType]
  by_cases h8 : s = "PEDESTAL"
  · subst h8; simp [iRunType, sRunType]
  by_cases h9 : s = "CURRENT"
  · subst h9; simp [iRunType, sRunType]
  by_cases h10 : s = "CURRENTSTATE"
  · subst h10; simp [iRunType, sRunType]
  simp [iRunType, sRunType, h1, h2, h3, h4, h5, h6, h7, h8, h9, h10]

end TkCommissioner
